import Mathlib

/-!
Verification of the Relevance Ranking & Semantic Retrieval Engine of the
repository (src/ai_agent/infrastructure/semantic_search.py and
src/ai_agent/infrastructure/advanced_ranking.py).

Modelling conventions used throughout this development:
* Python floats are modelled exactly as rationals.
* Python dicts whose keys may be absent are modelled as structures with
  Option-valued fields (none = key absent).  Where the code distinguishes a
  key that is present with value None from an absent key, the field has type
  Option (Option String).
* Wall-clock reads (time.time(), datetime.now()) are modelled by an explicit
  parameter now.  Date parsing (datetime.strptime inside parse_date) is an
  external library call and is modelled by an abstract parameter
  pd : String -> Option Int returning the parsed date as a day number, with
  none for unparseable strings; numeric timestamps are carried at day
  granularity as well.
* The scikit-learn calls (TfidfVectorizer, TruncatedSVD, cosine_similarity)
  are external collaborators, not code of this repository.  They are modelled
  by abstract parameters: simFn for cosine_similarity, qvOf for
  vectorizer.transform on the query, fit for the whole index-fitting step.
  The single mathematical fact the code relies on, that cosine similarity of
  unit vectors is at most 1 (Cauchy-Schwarz), is proved below over rational
  vectors (dotProd_le_one_of_unit) and enters the bound theorems as an
  explicit hypothesis on simFn.
-/

/-! ## Python string helpers -/

/-- Model of the Python substring test (needle in hay): listStarts checks
that the first list is an initial segment of the second. -/
def listStarts : List Char → List Char → Bool
  | [], _ => true
  | _ :: _, [] => false
  | a :: as, b :: bs => a = b && listStarts as bs

/-- Model of Python substring containment on character lists. -/
def listHasSub (needle : List Char) : List Char → Bool
  | [] => needle.isEmpty
  | c :: rest => listStarts needle (c :: rest) || listHasSub needle rest

/-- Model of the Python expression needle in hay for strings. -/
def substrB (needle hay : String) : Bool :=
  listHasSub needle.data hay.data

/-- Lowercasing, applied character-wise (model of Python str.lower();
structural so that the kernel can evaluate it). -/
def pyLower (s : String) : String :=
  String.mk (s.data.map Char.toLower)

/-- Splitting a character list at separator characters, keeping empty
segments, with an accumulator for the current segment. -/
def splitCharsAux (p : Char → Bool) : List Char → List Char → List String
  | [], acc => [String.mk acc.reverse]
  | c :: rest, acc =>
    if p c then String.mk acc.reverse :: splitCharsAux p rest []
    else splitCharsAux p rest (c :: acc)

/-- Model of splitting a string at every character satisfying p, keeping
empty segments (the semantics of String.split and of re-splitting). -/
def pySplit (p : Char → Bool) (s : String) : List String :=
  splitCharsAux p s.data []

/-- Model of Python str.split(sep) for a one-character separator. -/
def pySplitChar (sep : Char) (s : String) : List String :=
  pySplit (fun c => c = sep) s

/-- Model of Python str.strip(): drop whitespace from both ends. -/
def pyStrip (s : String) : String :=
  String.mk ((((s.data.dropWhile Char.isWhitespace).reverse).dropWhile
    Char.isWhitespace).reverse)

/-- Model of Python str.split() with no argument: split on whitespace runs
and drop empty pieces. -/
def pyWords (s : String) : List String :=
  (pySplit Char.isWhitespace s).filter (fun w => w ≠ "")

/-- Model of Python str(x) applied to an optional string, where an absent
value is the object None and str(None) is the text "None". -/
def strOfOpt : Option String → String
  | some s => s
  | none => "None"

/-- Model of the Python expression a or b on two optional strings where the
empty string and None are falsy; the result is none when both are falsy
(callers test the combined value with if not ... afterwards). -/
def orTruthyStr (a b : Option String) : Option String :=
  match a with
  | some s => if s ≠ "" then some s else
      match b with
      | some t => if t ≠ "" then some t else none
      | none => none
  | none =>
      match b with
      | some t => if t ≠ "" then some t else none
      | none => none

/-- Descending sort by a rational key, modelling Python list.sort with
key=... and reverse=True (both this and timsort are stable, so they agree). -/
def sortDescBy {α : Type} (f : α → ℚ) (l : List α) : List α :=
  List.insertionSort (fun a b => f b ≤ f a) l

theorem mem_sortDescBy {α : Type} (f : α → ℚ) (l : List α) (x : α) :
    x ∈ sortDescBy f l ↔ x ∈ l := by
  unfold sortDescBy
  exact List.mem_insertionSort _

theorem pairwise_sortDescBy {α : Type} (f : α → ℚ) (l : List α) :
    List.Pairwise (fun a b => f b ≤ f a) (sortDescBy f l) := by
  unfold sortDescBy
  haveI : IsTotal α (fun a b => f b ≤ f a) := ⟨fun a b => le_total (f b) (f a)⟩
  haveI : IsTrans α (fun a b => f b ≤ f a) := ⟨fun _ _ _ h h' => le_trans h' h⟩
  exact List.sorted_insertionSort _ l

/-! ## Cauchy-Schwarz for rational vectors

The scikit-learn index stores L2-normalized rows (normalize(..., norm='l2')
after TruncatedSVD, and TfidfVectorizer rows come L2-normalized), so cosine
similarity reduces to a dot product of unit (or zero) vectors, which is at
most 1.  We prove that fact over rational vectors; it justifies the
hypothesis (for all v w, simFn v w <= 1) used in the bound theorems. -/

/-- Dot product of two rational vectors, truncated to the shorter one. -/
def dotProd : List ℚ → List ℚ → ℚ
  | [], _ => 0
  | _, [] => 0
  | a :: as, b :: bs => a * b + dotProd as bs

/-- Squared L2 norm of a rational vector. -/
def sqNorm (v : List ℚ) : ℚ := dotProd v v

theorem sqNorm_nonneg (v : List ℚ) : 0 ≤ sqNorm v := by
  unfold sqNorm
  induction v with
  | nil => simp [dotProd]
  | cons y ys ihy => simpa [dotProd] using add_nonneg (mul_self_nonneg y) ihy

theorem two_mul_dotProd_le : ∀ a b : List ℚ, 2 * dotProd a b ≤ sqNorm a + sqNorm b := by
  intro a
  induction a with
  | nil =>
    intro b
    have := sqNorm_nonneg b
    simp only [dotProd]
    have h0 : sqNorm ([] : List ℚ) = 0 := by simp [sqNorm, dotProd]
    linarith
  | cons x as ih =>
    intro b
    cases b with
    | nil =>
      have := sqNorm_nonneg (x :: as)
      have h0 : sqNorm ([] : List ℚ) = 0 := by simp [sqNorm, dotProd]
      simp only [dotProd]
      linarith
    | cons y bs =>
      have h1 : 2 * (x * y) ≤ x * x + y * y := by nlinarith [sq_nonneg (x - y)]
      have h2 := ih bs
      simp only [dotProd, sqNorm] at *
      linarith

/-- Cosine similarity of L2-normalized vectors (as stored in the index) is
the dot product, and is at most 1. -/
theorem dotProd_le_one_of_unit (a b : List ℚ) (ha : sqNorm a = 1) (hb : sqNorm b = 1) :
    dotProd a b ≤ 1 := by
  have := two_mul_dotProd_le a b
  rw [ha, hb] at this
  linarith

/-! ## Data model of semantic_search.py -/

/-- Model of an input document dict of the semantic search engine; none
models an absent key.  Timestamp fields carry the parsed epoch-seconds value
(none = absent, None, or unparseable).  analysisStr models
str(doc.get('analysis', \x7b\x7d)), which is a non-empty text even for the
default empty dict.  matchesCount models len(doc.get('matches', [])). -/
structure SSDoc where
  id : Option String := none
  name : Option String := none
  title : Option String := none
  excerpt : Option String := none
  content : Option String := none
  space : Option String := none
  version : Option String := none
  key : Option String := none
  summary : Option String := none
  description : Option String := none
  status : Option String := none
  priority : Option String := none
  assignee : Option String := none
  file_path : Option String := none
  content_preview : Option String := none
  analysisStr : String := "\x7b\x7d"
  file_type : Option String := none
  url : Option String := none
  size : Option ℤ := none
  lastModified : Option ℚ := none
  created : Option ℚ := none
  updated : Option ℚ := none
  modified : Option ℚ := none
  matchesCount : Option ℕ := none
  deriving DecidableEq

/-- Model of the metadata dict built by extract_metadata.  priority is
doubly optional because the jira branch always inserts the key, possibly
with value None, and the popularity score tests key presence. -/
structure SSMetadata where
  last_modified : Option ℚ := none
  created : Option ℚ := none
  updated : Option ℚ := none
  modified : Option ℚ := none
  space : Option String := none
  version : Option String := none
  status : Option String := none
  priority : Option (Option String) := none
  assignee : Option String := none
  file_type : Option String := none
  size : Option ℤ := none
  matchesVal : Option ℕ := none
  deriving DecidableEq

/-- Model of the SearchResult dataclass. -/
structure SearchResult where
  content : String
  source : String
  source_type : String
  title : String
  url : Option String := none
  metadata : SSMetadata := {}
  relevance_score : ℚ := 0
  semantic_score : ℚ := 0
  keyword_score : ℚ := 0
  freshness_score : ℚ := 0
  popularity_score : ℚ := 0
  combined_score : ℚ := 0
  deriving DecidableEq

/-- Model of the configuration dict consumed by SemanticSearchEngine. -/
structure SearchConfig where
  max_features : Option ℕ := none
  ngram_range : Option (ℕ × ℕ) := none
  svd_components : Option ℕ := none
  min_df : Option ℚ := none
  max_df : Option ℚ := none
  semantic_weight : Option ℚ := none
  keyword_weight : Option ℚ := none
  freshness_weight : Option ℚ := none
  popularity_weight : Option ℚ := none

/-- The four combined-score weights of the engine. -/
structure ScoreWeights where
  semantic : ℚ
  keyword : ℚ
  freshness : ℚ
  popularity : ℚ
  deriving DecidableEq

/-- Model of a fitted per-source index: documents, the stored vector rows
(reduced_matrix when SVD applies, otherwise the tfidf rows), and the
doc-id-to-embedding map. -/
structure SearchIndex where
  documents : List SSDoc
  matrixRows : List (List ℚ)
  document_embeddings : List (String × List ℚ)

/-- Model of the engine state: the per-source-type index dict plus the
configuration values read in init.  Note that init performs no validation
whatsoever on the configuration. -/
structure Engine where
  indexes : List (String × SearchIndex) := []
  max_features : ℕ := 10000
  ngram_range : ℕ × ℕ := (1, 3)
  svd_components : ℕ := 300
  min_df : ℚ := 2
  max_df : ℚ := 4/5
  scoreWeights : ScoreWeights := ⟨2/5, 3/10, 3/20, 3/20⟩

/-- Model of SemanticSearchEngine.init: every config value is read with a
default and stored; there is no validation or rejection path. -/
def mkScoreWeights (c : SearchConfig) : ScoreWeights :=
  { semantic := c.semantic_weight.getD (2/5)
    keyword := c.keyword_weight.getD (3/10)
    freshness := c.freshness_weight.getD (3/20)
    popularity := c.popularity_weight.getD (3/20) }

/-- The weights obtained from an empty configuration dict. -/
def defaultScoreWeights : ScoreWeights := mkScoreWeights {}

/-- Model of SemanticSearchEngine.init (construction of the engine). -/
def mkEngine (c : SearchConfig) : Engine :=
  { indexes := []
    max_features := c.max_features.getD 10000
    ngram_range := c.ngram_range.getD (1, 3)
    svd_components := c.svd_components.getD 300
    min_df := c.min_df.getD 2
    max_df := c.max_df.getD (4/5)
    scoreWeights := mkScoreWeights c }

/-! ## Extraction helpers of semantic_search.py -/

/-- Dict-values iteration of the generic branch of extract_text_content,
modelled in field-declaration order. -/
def genericParts (d : SSDoc) : List String :=
  ([d.id, d.name, d.title, d.excerpt, d.content, d.space, d.version, d.key, d.summary,
    d.description, d.status, d.priority, d.assignee, d.file_path, d.content_preview,
    d.file_type, d.url].filterMap id)
    ++ [d.analysisStr]
    ++ (match d.size with | some z => [toString z] | none => [])

/-- Model of extract_text_content. -/
def extractTextContent (d : SSDoc) (st : String) : String :=
  let parts : List String :=
    if st = "confluence" then
      [d.title.getD "", d.excerpt.getD "", d.content.getD "", d.space.getD ""]
    else if st = "jira" then
      [d.key.getD "", d.summary.getD "", d.description.getD "", d.status.getD "",
        d.priority.getD ""]
    else if st = "code" then
      [d.file_path.getD "", d.content_preview.getD "", d.analysisStr]
    else genericParts d
  " ".intercalate (parts.filter (fun p => p ≠ ""))

/-- Model of get_document_id.  In the generic branch the code falls back to
hash(str(doc)), a process-seeded value no claim depends on; it is modelled
by the fixed text below. -/
def getDocumentId (d : SSDoc) (st : String) : String :=
  if st = "confluence" then "confluence:" ++ d.id.getD (d.title.getD "unknown")
  else if st = "jira" then "jira:" ++ d.key.getD (d.id.getD "unknown")
  else if st = "code" then "code:" ++ d.file_path.getD "unknown"
  else st ++ ":" ++ d.id.getD "pyhash"

/-- Model of extract_title. -/
def extractTitle (d : SSDoc) (st : String) : String :=
  if st = "confluence" then d.title.getD "Untitled"
  else if st = "jira" then d.key.getD "" ++ ": " ++ d.summary.getD "Untitled"
  else if st = "code" then d.file_path.getD "Unknown file"
  else d.title.getD (d.name.getD "Untitled")

/-- Model of extract_metadata. -/
def extractSSMetadata (d : SSDoc) (st : String) : SSMetadata :=
  if st = "confluence" then
    { last_modified := d.lastModified, space := d.space, version := d.version }
  else if st = "jira" then
    { created := d.created, updated := d.updated, status := d.status,
      priority := some d.priority, assignee := d.assignee }
  else if st = "code" then
    { file_type := d.file_type, size := d.size, modified := d.modified,
      matchesVal := some (d.matchesCount.getD 0) }
  else {}

/-! ## Scoring functions of semantic_search.py -/

/-- Model of calculate_keyword_score.  Python sets are modelled as deduped
lists; only cardinalities and membership are consumed. -/
def calculateKeywordScore (query content : String) : ℚ :=
  let queryWords := (pyWords (pyLower query)).dedup
  let contentWords := (pyWords (pyLower content)).dedup
  if queryWords.isEmpty then 0
  else
    let exactCount := queryWords.countP (fun w => contentWords.contains w)
    let looseCount := queryWords.countP (fun w => contentWords.any (fun cw => substrB w cw))
    let exactScore : ℚ := (exactCount : ℚ) / (queryWords.length : ℚ)
    let looseScore : ℚ := (looseCount : ℚ) / (queryWords.length : ℚ) * (1/2)
    min 1 (exactScore + looseScore)

/-- First timestamp field whose value is truthy, in the fixed field order of
calculate_freshness_score; a parsed value of 0 is falsy in Python and makes
the loop continue, exactly as an unparseable value does. -/
def findNonzeroTime : List (Option ℚ) → Option ℚ
  | [] => none
  | some t :: rest => if t ≠ 0 then some t else findNonzeroTime rest
  | none :: rest => findNonzeroTime rest

/-- Model of calculate_freshness_score; now is the value of time.time(). -/
def calculateFreshnessScore (m : SSMetadata) (now : ℚ) : ℚ :=
  match findNonzeroTime [m.last_modified, m.updated, m.modified, m.created] with
  | none => 1/2
  | some t =>
    let ageDays : ℚ := (now - t) / (24 * 3600)
    if ageDays < 7 then 1
    else if ageDays < 30 then 4/5
    else if ageDays < 90 then 3/5
    else if ageDays < 365 then 2/5
    else 1/5

/-- The fixed JIRA priority table of calculate_popularity_score. -/
def priorityTable : List (String × ℚ) :=
  [("critical", 1), ("high", 4/5), ("medium", 3/5), ("low", 2/5)]

/-- Model of calculate_popularity_score.  A size key present with value
None makes the real code raise inside the item loop (the surrounding except
then discards the whole source's results); that corner returns no scored
result either way and is modelled as the absent-key branch. -/
def calculatePopularityScore (m : SSMetadata) : ℚ :=
  let s1 : ℚ :=
    match m.matchesVal with
    | some n => min 1 ((n : ℚ) / 10) * (1/2)
    | none => 0
  let s2 : ℚ := s1 +
    (match m.size with
     | some sz => if 1000 < sz ∧ sz < 100000 then 3/10 else 0
     | none => 0)
  let s3 : ℚ := s2 +
    (match m.priority with
     | some v => ((priorityTable.lookup (pyLower (strOfOpt v))).getD (1/2)) * (1/5)
     | none => 0)
  min 1 s3

/-- Model of calculate_combined_score. -/
def calculateCombinedScore (w : ScoreWeights) (r : SearchResult) : ℚ :=
  r.semantic_score * w.semantic + r.keyword_score * w.keyword +
    r.freshness_score * w.freshness + r.popularity_score * w.popularity

/-! ## Search operations of semantic_search.py -/

/-- Construction of one scored SearchResult inside search_index: the
semantic score is the cosine similarity s, the other factor scores are
computed from the document, and the combined score blends them. -/
def buildResult (w : ScoreWeights) (query st : String) (now : ℚ) (s : ℚ) (d : SSDoc) :
    SearchResult :=
  let content := extractTextContent d st
  let md := extractSSMetadata d st
  let base : SearchResult :=
    { content := content, source := getDocumentId d st, source_type := st,
      title := extractTitle d st, url := d.url, metadata := md,
      semantic_score := s,
      keyword_score := calculateKeywordScore query content,
      freshness_score := calculateFreshnessScore md now,
      popularity_score := calculatePopularityScore md }
  { base with combined_score := calculateCombinedScore w base }

/-- Model of search_index: similarities of the query vector against every
stored row, top-k by similarity, keep only strictly positive similarities,
and build scored results.  simFn models sklearn cosine_similarity and qv the
projected query vector. -/
def searchIndexRun (w : ScoreWeights) (simFn : List ℚ → List ℚ → ℚ) (qv : List ℚ)
    (idx : SearchIndex) (query st : String) (now : ℚ) (k : ℕ) : List SearchResult :=
  let sims := idx.matrixRows.map (fun row => simFn qv row)
  let pairs := sims.zip idx.documents
  let top := (sortDescBy (fun p => p.1) pairs).take k
  (top.filter (fun p => decide (0 < p.1))).map (fun p => buildResult w query st now p.1 p.2)

/-- Model of search: per requested source type with an index, over-fetch
2*limit candidates, merge, sort by combined score descending, filter by
min_score, truncate to limit. -/
def searchEngine (simFn : List ℚ → List ℚ → ℚ) (qvOf : String → List ℚ) (e : Engine)
    (query : String) (source_types : Option (List String)) (limit : ℕ) (min_score : ℚ)
    (now : ℚ) : List SearchResult :=
  let sts := source_types.getD (e.indexes.map (fun p => p.1))
  let allResults := (sts.map (fun st =>
    match e.indexes.lookup st with
    | none => []
    | some idx => searchIndexRun e.scoreWeights simFn (qvOf query) idx query st now (limit * 2))).flatten
  let sorted := sortDescBy (fun r => r.combined_score) allResults
  (sorted.filter (fun r => decide (min_score ≤ r.combined_score))).take limit

/-- Dict update of self.indexes[source_type]: replace an existing entry in
place or append a new one. -/
def setIndex (l : List (String × SearchIndex)) (st : String) (idx : SearchIndex) :
    List (String × SearchIndex) :=
  if (l.lookup st).isSome then l.map (fun p => if p.1 = st then (st, idx) else p)
  else l ++ [(st, idx)]

/-- Model of build_index.  fit models the whole scikit-learn fitting step
(TfidfVectorizer, optional TruncatedSVD, embedding map); a fit error is the
none case and, like every failure path, returns false without touching the
stored indexes. -/
def buildIndex (fit : List SSDoc → String → Option SearchIndex) (e : Engine)
    (documents : List SSDoc) (st : String) : Bool × Engine :=
  if documents.isEmpty then (false, e)
  else
    let processed := documents.filter (fun d => decide (10 < (pyStrip (extractTextContent d st)).length))
    if processed.isEmpty then (false, e)
    else
      match fit processed st with
      | none => (false, e)
      | some idx => (true, { e with indexes := setIndex e.indexes st idx })

/-- Construction of a similar-document result inside find_similar_documents
(semantic and combined score are both the raw similarity). -/
def mkSimResult (st : String) (s : ℚ) (d : SSDoc) : SearchResult :=
  { content := extractTextContent d st, source := getDocumentId d st, source_type := st,
    title := extractTitle d st, url := d.url, metadata := extractSSMetadata d st,
    semantic_score := s, combined_score := s }

/-- The accumulation loop of find_similar_documents: stop at limit, skip the
queried document itself, keep similarities strictly above 0.1. -/
def simLoop (docId st : String) (limit : ℕ) :
    List (ℚ × SSDoc) → List SearchResult → List SearchResult
  | [], acc => acc.reverse
  | (s, d) :: rest, acc =>
    if limit ≤ acc.length then acc.reverse
    else if getDocumentId d st = docId then simLoop docId st limit rest acc
    else if 1/10 < s then simLoop docId st limit rest (mkSimResult st s d :: acc)
    else simLoop docId st limit rest acc

/-- Model of find_similar_documents. -/
def findSimilarDocuments (simFn : List ℚ → List ℚ → ℚ) (e : Engine)
    (document_id st : String) (limit : ℕ) : List SearchResult :=
  match e.indexes.lookup st with
  | none => []
  | some idx =>
    match idx.document_embeddings.lookup document_id with
    | none => []
    | some emb =>
      let sims := idx.matrixRows.map (fun row => simFn emb row)
      let pairs := sortDescBy (fun p => p.1) (sims.zip idx.documents)
      simLoop document_id st limit pairs []

/-! ## Data model of advanced_ranking.py -/

/-- Model of the value stored under the modified key of a code result: a
numeric timestamp (carried as the day number its datetime conversion yields)
or a date string left for parse_date. -/
inductive TsVal where
  | num (t : ℤ)
  | str (s : String)
  deriving DecidableEq

/-- Model of one already-fetched result dict handed to the ranker; none
models an absent key.  Date strings (last_modified, created, updated) are
kept raw because the code parses them at use sites, with different fallback
behaviour per site.  commentsCount and matchesCount model the lengths of the
corresponding lists. -/
structure RItem where
  id : Option String := none
  key : Option String := none
  title : Option String := none
  excerpt : Option String := none
  content : Option String := none
  summary : Option String := none
  description : Option String := none
  file_path : Option String := none
  content_preview : Option String := none
  last_modified : Option String := none
  created : Option String := none
  updated : Option String := none
  modified : Option TsVal := none
  assignee : Option String := none
  reporter : Option String := none
  author : Option String := none
  project : Option String := none
  space : Option String := none
  status : Option String := none
  priority : Option String := none
  labels : Option (List String) := none
  components : Option (List String) := none
  commentsCount : Option ℕ := none
  size : Option ℤ := none
  matchesCount : Option ℕ := none
  lines : Option ℤ := none
  deriving DecidableEq

/-- Model of the user_context dict.  An empty dict short-circuits
calculate_team_relevance to 0.5; the default structure value below produces
the same score through the normal path, so one type covers both. -/
structure UserContext where
  team_keywords : List String := []
  username : Option String := none
  projects : List String := []
  spaces : List String := []
  deriving DecidableEq

/-- A ranked item: the original result plus the ranking fields the ranker
writes into the dict (the human-readable ranking_factors strings are not
modelled; no claim mentions them). -/
structure RankedItem where
  item : RItem
  ranking_score : ℚ
  ranking_breakdown : List (String × ℚ)
  correlation_boost : Option ℚ := none
  deriving DecidableEq

/-! ## Factor scores of advanced_ranking.py -/

/-- Model of get_content_text. -/
def getContentText (r : RItem) (st : String) : String :=
  if st = "confluence" then
    r.title.getD "" ++ " " ++ r.excerpt.getD "" ++ " " ++ r.content.getD ""
  else if st = "jira" then r.summary.getD "" ++ " " ++ r.description.getD ""
  else if st = "code" then r.file_path.getD "" ++ " " ++ r.content_preview.getD ""
  else ""

/-- Model of calculate_content_relevance. -/
def calculateContentRelevance (it : RItem) (query st : String) : ℚ :=
  let queryTerms := (pyWords (pyLower query)).dedup
  if queryTerms.isEmpty then 1/2
  else
    let textOpt : Option String :=
      if st = "confluence" then
        some (it.title.getD "" ++ " " ++ it.excerpt.getD "" ++ " " ++ it.content.getD "")
      else if st = "jira" then some (it.summary.getD "" ++ " " ++ it.description.getD "")
      else if st = "code" then some (it.file_path.getD "" ++ " " ++ it.content_preview.getD "")
      else none
    match textOpt with
    | none => 1/2
    | some text =>
      let tl := pyLower text
      let exactCount := queryTerms.countP (fun t => substrB t tl)
      let looseCount := queryTerms.countP (fun t => (pyWords tl).any (fun w => substrB t w))
      let titleText :=
        if st = "confluence" then pyLower (it.title.getD "")
        else if st = "jira" then pyLower (it.summary.getD "")
        else if st = "code" then pyLower (it.file_path.getD "")
        else ""
      let titleCount := queryTerms.countP (fun t => substrB t titleText)
      let n : ℚ := (queryTerms.length : ℚ)
      min 1 (((exactCount : ℚ) / n + (looseCount : ℚ) / n * (1/2) + (titleCount : ℚ) / n * (3/2)) / 2)

/-- The decay curve of calculate_recency_score on the age in days. -/
def recencyCurve (d : ℤ) : ℚ :=
  if d ≤ 1 then 1
  else if d ≤ 7 then 19/20 - ((d : ℚ) - 1) * (1/40)
  else if d ≤ 30 then 4/5 - ((d : ℚ) - 7) * (87/10000)
  else if d ≤ 90 then 3/5 - ((d : ℚ) - 30) * (33/10000)
  else if d ≤ 365 then 2/5 - ((d : ℚ) - 90) * (7/10000)
  else max (1/10) (1/5 - ((d : ℚ) - 365) * (1/10000))

/-- Model of calculate_recency_score: first truthy of the two raw date
strings, parsed by pd (the parse_date model); missing or unparseable dates
give the neutral 0.5.  now models datetime.now() as a day number. -/
def calculateRecencyScore (pd : String → Option ℤ) (now : ℤ)
    (modified created : Option String) : ℚ :=
  match orTruthyStr modified created with
  | none => 1/2
  | some s =>
    match pd s with
    | none => 1/2
    | some dt => recencyCurve (now - dt)

/-- The distinct, coarser decay curve of calculate_file_recency_score. -/
def fileRecencyCurve (d : ℤ) : ℚ :=
  if d ≤ 1 then 1
  else if d ≤ 7 then 9/10
  else if d ≤ 30 then 7/10
  else if d ≤ 90 then 1/2
  else max (1/5) (1/2 - ((d : ℚ) - 90) * (1/1000))

/-- Model of calculate_file_recency_score (used for code results only).  A
numeric timestamp of 0 and an empty string are falsy and give 0.5. -/
def calculateFileRecencyScore (pd : String → Option ℤ) (now : ℤ) (r : RItem) : ℚ :=
  match r.modified with
  | none => 1/2
  | some (TsVal.num t) => if t = 0 then 1/2 else fileRecencyCurve (now - t)
  | some (TsVal.str s) =>
    if s = "" then 1/2
    else
      match pd s with
      | none => 1/2
      | some dt => fileRecencyCurve (now - dt)

/-- Model of calculate_team_relevance. -/
def calculateTeamRelevance (r : RItem) (uc : UserContext) (st : String) : ℚ :=
  let base : ℚ := 1/2
  let kwAdd : ℚ :=
    if uc.team_keywords.isEmpty then 0
    else
      let contentText := pyLower (getContentText r st)
      let hits := uc.team_keywords.countP (fun kw => substrB (pyLower kw) contentText)
      ((hits : ℚ) / (uc.team_keywords.length : ℚ)) * (3/10)
  let userAdd : ℚ :=
    if st = "jira" then
      let assignee := pyLower (r.assignee.getD "")
      let reporter := pyLower (r.reporter.getD "")
      let cu := pyLower (uc.username.getD "")
      if cu ≠ "" ∧ (substrB cu assignee ∨ substrB cu reporter) then 1/5 else 0
    else if st = "confluence" then
      let author := pyLower (r.author.getD "")
      let cu := pyLower (uc.username.getD "")
      if cu ≠ "" ∧ substrB cu author then 3/20 else 0
    else 0
  let projAdd : ℚ :=
    if st = "jira" then
      if (uc.projects.map (fun p => pyLower p)).contains (pyLower (r.project.getD ""))
      then 3/20 else 0
    else if st = "confluence" then
      if (uc.spaces.map (fun p => pyLower p)).contains (pyLower (r.space.getD ""))
      then 3/20 else 0
    else 0
  min 1 (base + kwAdd + userAdd + projAdd)

/-- Model of calculate_confluence_quality_score. -/
def calculateConfluenceQualityScore (r : RItem) : ℚ :=
  let s1 : ℚ := 1/2 +
    (let cl := (r.content.getD "").length + (r.excerpt.getD "").length
     if 1000 < cl then 1/5 else if 500 < cl then 1/10 else 0)
  let s2 := s1 +
    (if ["guide", "documentation", "how to", "tutorial"].any
        (fun ind => substrB ind (pyLower (r.title.getD ""))) then 3/20 else 0)
  let s3 := s2 + (if !(r.labels.getD []).isEmpty then 1/10 else 0)
  let s4 := s3 +
    (if (r.last_modified.getD "") ≠ "" ∧ (r.created.getD "") ≠ "" ∧
        r.last_modified.getD "" ≠ r.created.getD "" then 1/20 else 0)
  min 1 s4

/-- Model of calculate_jira_quality_score. -/
def calculateJiraQualityScore (r : RItem) : ℚ :=
  let s1 : ℚ := 1/2 + (if 100 < (r.description.getD "").length then 3/20 else 0)
  let s2 := s1 + (if !(r.components.getD []).isEmpty then 1/10 else 0)
  let s3 := s2 + (if !(r.labels.getD []).isEmpty then 1/10 else 0)
  let s4 := s3 +
    (let p := pyLower (r.priority.getD "")
     if ["high", "critical", "blocker"].contains p then 1/10
     else if p = "medium" then 1/20 else 0)
  let s5 := s4 +
    (let cc := r.commentsCount.getD 0
     if 0 < cc then min (1/10) ((cc : ℚ) * (1/50)) else 0)
  min 1 s5

/-- Model of calculate_code_quality_score. -/
def calculateCodeQualityScore (r : RItem) : ℚ :=
  let fp := r.file_path.getD ""
  let ext := if substrB "." fp then pyLower ((pySplitChar '.' fp).getLastD "") else ""
  let s1 : ℚ := 1/2 +
    (if ["java", "py", "js", "ts", "cpp", "c", "go"].contains ext then 3/20
     else if ["sql", "yaml", "yml", "json"].contains ext then 1/10
     else if ["md", "txt"].contains ext then 1/20 else 0)
  let s2 := s1 +
    (if ["src/main", "lib/", "core/", "api/"].any (fun p => substrB p (pyLower fp)) then 1/10
     else if ["test/", "spec/", "__test__"].any (fun p => substrB p (pyLower fp)) then 1/20
     else 0)
  let s3 := s2 +
    (let sz := r.size.getD 0
     if 1000 ≤ sz ∧ sz ≤ 50000 then 1/10
     else if 100 ≤ sz ∧ sz ≤ 100000 then 1/20 else 0)
  let s4 := s3 +
    (let mc := r.matchesCount.getD 0
     if 0 < mc then min (3/20) ((mc : ℚ) * (3/100)) else 0)
  min 1 s4

/-- Model of calculate_priority_boost (the fixed priority table; unknown
priorities give 0.05). -/
def calculatePriorityBoost (r : RItem) : ℚ :=
  let p := pyLower (r.priority.getD "")
  ((([("blocker", 3/10), ("critical", 1/4), ("high", 1/5), ("medium", 1/10), ("low", 0)] :
      List (String × ℚ)).lookup p).getD (1/20))

/-- Model of calculate_status_relevance. -/
def calculateStatusRelevance (r : RItem) (query : String) : ℚ :=
  let status := pyLower (r.status.getD "")
  let ql := pyLower query
  if (["current", "active", "working", "progress"].any (fun w => substrB w ql)) ∧
      ["in progress", "open", "reopened"].contains status then 1/5
  else if (["resolved", "fixed", "completed", "done"].any (fun w => substrB w ql)) ∧
      ["resolved", "closed", "done"].contains status then 1/5
  else 1/10

/-- Model of calculate_match_density (the query argument is unused in the
source as well). -/
def calculateMatchDensity (r : RItem) (_query : String) : ℚ :=
  let mc := r.matchesCount.getD 0
  if mc = 0 then 0
  else
    let tl := max (r.lines.getD 1) 1
    min (1/5) (((mc : ℚ) / (tl : ℚ)) * 10)

/-- Model of calculate_file_importance. -/
def calculateFileImportance (r : RItem) : ℚ :=
  let fp := pyLower (r.file_path.getD "")
  if ["main.", "index.", "app.", "server.", "config."].any (fun p => substrB p fp) then 3/20
  else if ["service", "controller", "manager", "handler"].any (fun p => substrB p fp) then 1/10
  else if ["util", "helper", "common"].any (fun p => substrB p fp) then 1/20
  else 0

/-! ## Composite ranking of advanced_ranking.py -/

/-- The fixed base weight table of AdvancedRankingEngine.init. -/
def rankingWeights : List (String × ℚ) :=
  [("content_relevance", 7/20), ("recency", 1/5), ("cross_source_correlation", 3/20),
   ("team_relevance", 3/20), ("quality_indicators", 1/10), ("interaction_history", 1/20)]

/-- Model of self.weights.get(factor, 0.05): factors absent from the table
default to weight 0.05. -/
def weightFor (f : String) : ℚ := (rankingWeights.lookup f).getD (1/20)

/-- Composite score: sum over the breakdown dict of score times weight. -/
def compositeOf (bd : List (String × ℚ)) : ℚ := (bd.map (fun p => p.2 * weightFor p.1)).sum

/-- The scores dict built for one confluence result, in insertion order. -/
def confluenceBreakdown (pd : String → Option ℤ) (now : ℤ) (query : String)
    (uc : UserContext) (it : RItem) : List (String × ℚ) :=
  [("content_relevance", calculateContentRelevance it query "confluence"),
   ("recency", calculateRecencyScore pd now it.last_modified it.created),
   ("team_relevance", calculateTeamRelevance it uc "confluence"),
   ("quality_indicators", calculateConfluenceQualityScore it)]

/-- The scores dict built for one JIRA result, in insertion order. -/
def jiraBreakdown (pd : String → Option ℤ) (now : ℤ) (query : String)
    (uc : UserContext) (it : RItem) : List (String × ℚ) :=
  [("content_relevance", calculateContentRelevance it query "jira"),
   ("recency", calculateRecencyScore pd now it.updated it.created),
   ("team_relevance", calculateTeamRelevance it uc "jira"),
   ("quality_indicators", calculateJiraQualityScore it),
   ("priority_boost", calculatePriorityBoost it),
   ("status_relevance", calculateStatusRelevance it query)]

/-- The scores dict built for one code result, in insertion order.  Note the
recency factor uses the file recency curve, not the piecewise-linear one. -/
def codeBreakdown (pd : String → Option ℤ) (now : ℤ) (query : String)
    (uc : UserContext) (it : RItem) : List (String × ℚ) :=
  [("content_relevance", calculateContentRelevance it query "code"),
   ("recency", calculateFileRecencyScore pd now it),
   ("team_relevance", calculateTeamRelevance it uc "code"),
   ("quality_indicators", calculateCodeQualityScore it),
   ("match_density", calculateMatchDensity it query),
   ("file_importance", calculateFileImportance it)]

/-- Attach composite score and breakdown to one item. -/
def augmentWith (bd : List (String × ℚ)) (it : RItem) : RankedItem :=
  { item := it, ranking_score := compositeOf bd, ranking_breakdown := bd }

/-- Model of rank_confluence_results. -/
def rankConfluenceResults (pd : String → Option ℤ) (now : ℤ) (query : String)
    (uc : UserContext) (results : List RItem) : List RankedItem :=
  sortDescBy (fun r => r.ranking_score)
    (results.map (fun it => augmentWith (confluenceBreakdown pd now query uc it) it))

/-- Model of rank_jira_results. -/
def rankJiraResults (pd : String → Option ℤ) (now : ℤ) (query : String)
    (uc : UserContext) (results : List RItem) : List RankedItem :=
  sortDescBy (fun r => r.ranking_score)
    (results.map (fun it => augmentWith (jiraBreakdown pd now query uc it) it))

/-- Model of rank_code_results. -/
def rankCodeResults (pd : String → Option ℤ) (now : ℤ) (query : String)
    (uc : UserContext) (results : List RItem) : List RankedItem :=
  sortDescBy (fun r => r.ranking_score)
    (results.map (fun it => augmentWith (codeBreakdown pd now query uc it) it))

/-! ## Cross-source correlation of advanced_ranking.py -/

/-- The fixed technical vocabulary of calculate_correlation_score. -/
def techTermsList : List String :=
  ["api", "database", "authentication", "error", "bug", "feature", "config", "deploy"]

/-- Model of re.findall of word runs of length at least three, as a set
(deduped list); ASCII word characters cover every string the claims use. -/
def corrTerms (s : String) : List String :=
  ((pySplit (fun c => !(c.isAlphanum || c == '_')) s).filter (fun w => 3 ≤ w.length)).dedup

/-- Key terms of one result for correlation purposes. -/
def corrTermsOf (r : RItem) (t : String) : List String :=
  corrTerms (pyLower (getContentText r t))

/-- The term-overlap component: common terms over the larger term set. -/
def termOverlapScore (r1 r2 : RItem) (t1 t2 : String) : ℚ :=
  let T1 := corrTermsOf r1 t1
  let T2 := corrTermsOf r2 t2
  if T1.isEmpty || T2.isEmpty then 0
  else ((T1.filter (fun w => T2.contains w)).length : ℚ) /
    ((max T1.length T2.length : ℕ) : ℚ)

/-- Number of shared terms that belong to the technical vocabulary. -/
def sharedTechCount (r1 r2 : RItem) (t1 t2 : String) : ℕ :=
  (((corrTermsOf r1 t1).filter (fun w => (corrTermsOf r2 t2).contains w)).filter
    (fun w => techTermsList.contains w)).length

/-- The JIRA-key-in-code-path indicator: 0.2 when a hyphen part of the key
longer than two characters occurs in the file path. -/
def jiraKeyIndicator (r1 r2 : RItem) (t1 t2 : String) : ℚ :=
  if t1 = "jira" ∧ t2 = "code" then
    let jk := r1.key.getD ""
    let cf := r2.file_path.getD ""
    if jk ≠ "" ∧ ((pySplitChar '-' jk).any
        (fun seg => decide (2 < seg.length) && substrB (pyLower seg) (pyLower cf)))
    then 1/5 else 0
  else 0

/-- The accumulated correlation indicators. -/
def indicatorScore (r1 r2 : RItem) (t1 t2 : String) : ℚ :=
  (if 0 < sharedTechCount r1 r2 t1 t2 then (sharedTechCount r1 r2 t1 t2 : ℚ) * (1/10) else 0)
    + jiraKeyIndicator r1 r2 t1 t2

/-- The date-proximity step curve of calculate_date_correlation. -/
def dateProximityCurve (d : ℤ) : ℚ :=
  if d ≤ 1 then 1
  else if d ≤ 7 then 4/5
  else if d ≤ 30 then 3/5
  else if d ≤ 90 then 2/5
  else 1/5

/-- The date a result contributes to date correlation, per source type; for
code only numeric timestamps count (string timestamps give none here). -/
def dateOf (pd : String → Option ℤ) (r : RItem) (t : String) : Option ℤ :=
  if t = "confluence" then (orTruthyStr r.last_modified r.created).bind pd
  else if t = "jira" then (orTruthyStr r.updated r.created).bind pd
  else if t = "code" then
    match r.modified with
    | some (TsVal.num x) => some x
    | _ => none
  else none

/-- Model of calculate_date_correlation. -/
def calculateDateCorrelation (pd : String → Option ℤ) (r1 r2 : RItem) (t1 t2 : String) : ℚ :=
  match dateOf pd r1 t1, dateOf pd r2 t2 with
  | some a, some b => dateProximityCurve |a - b|
  | _, _ => 0

/-- Model of calculate_correlation_score: 0.6 term overlap + 0.3 indicators
+ 0.1 date proximity, clamped to 1; empty term sets give 0. -/
def calculateCorrelationScore (pd : String → Option ℤ) (r1 r2 : RItem) (t1 t2 : String) : ℚ :=
  let T1 := corrTermsOf r1 t1
  let T2 := corrTermsOf r2 t2
  if T1.isEmpty || T2.isEmpty then 0
  else
    min 1 (termOverlapScore r1 r2 t1 t2 * (3/5) + indicatorScore r1 r2 t1 t2 * (3/10)
      + calculateDateCorrelation pd r1 r2 t1 t2 * (1/10))

/-- Model of one recorded correlation entry.  A field is some v when the
corresponding dict key is present, and v is the (possibly None) id value;
the correlation_factors strings are not modelled (no claim mentions them). -/
structure Correlation where
  confluence_id : Option (Option String) := none
  jira_key : Option (Option String) := none
  code_file : Option (Option String) := none
  correlation_score : ℚ
  deriving DecidableEq

/-- Model of the correlations dict of calculate_cross_source_correlations. -/
structure CrossCorrelations where
  confluence_jira : List Correlation
  confluence_code : List Correlation
  jira_code : List Correlation
  strong_correlations : List Correlation
  deriving DecidableEq

/-- Model of calculate_cross_source_correlations: pairwise over the top 10
confluence, top 10 jira and top 15 code ranked items, recording pairs above
0.6 (confluence-jira) or 0.5 (the code pairs); entries above 0.75 are also
collected as strong (the insight strings are not modelled). -/
def calculateCrossSourceCorrelations (pd : String → Option ℤ)
    (conf jira code : List RankedItem) (_query : String) : CrossCorrelations :=
  let cj := ((conf.take 10).map (fun c =>
    (jira.take 10).filterMap (fun j =>
      let s := calculateCorrelationScore pd c.item j.item "confluence" "jira"
      if 3/5 < s then
        some { confluence_id := some c.item.id, jira_key := some j.item.key,
               correlation_score := s }
      else none))).flatten
  let cc := ((conf.take 10).map (fun c =>
    (code.take 15).filterMap (fun k =>
      let s := calculateCorrelationScore pd c.item k.item "confluence" "code"
      if 1/2 < s then
        some { confluence_id := some c.item.id, code_file := some k.item.file_path,
               correlation_score := s }
      else none))).flatten
  let jc := ((jira.take 10).map (fun j =>
    (code.take 15).filterMap (fun k =>
      let s := calculateCorrelationScore pd j.item k.item "jira" "code"
      if 1/2 < s then
        some { jira_key := some j.item.key, code_file := some k.item.file_path,
               correlation_score := s }
      else none))).flatten
  { confluence_jira := cj, confluence_code := cc, jira_code := jc,
    strong_correlations := (cj ++ cc ++ jc).filter
      (fun c => decide (3/4 < c.correlation_score)) }

/-! ## Correlation boosts of advanced_ranking.py -/

/-- All recorded entries, in the order apply_correlation_boosts walks them. -/
def allCorrEntries (c : CrossCorrelations) : List Correlation :=
  c.confluence_jira ++ c.confluence_code ++ c.jira_code

/-- The boost-map keys one correlation entry contributes to. -/
def corrKeys (c : Correlation) : List String :=
  (match c.confluence_id with | some v => ["confluence_" ++ strOfOpt v] | none => []) ++
  (match c.jira_key with | some v => ["jira_" ++ strOfOpt v] | none => []) ++
  (match c.code_file with | some v => ["code_" ++ strOfOpt v] | none => [])

/-- The accumulated boost of one key: the sum over every correlation
touching the key of its strength times 0.1 (the defaultdict accumulation). -/
def totalBoost (entries : List Correlation) (key : String) : ℚ :=
  ((entries.filter (fun c => (corrKeys c).contains key)).map
    (fun c => c.correlation_score * (1/10))).sum

/-- Whether the key is present in the boost defaultdict at all. -/
def keyTouched (entries : List Correlation) (key : String) : Bool :=
  entries.any (fun c => (corrKeys c).contains key)

/-- Post-boost update of one ranked item: items whose key is in the boost
map get min 1 (score + boost) and the boost recorded; others are untouched. -/
def boostItem (entries : List Correlation) (keyOf : RankedItem → String)
    (r : RankedItem) : RankedItem :=
  let k := keyOf r
  if keyTouched entries k then
    { r with ranking_score := min 1 (r.ranking_score + totalBoost entries k),
             correlation_boost := some (totalBoost entries k) }
  else r

/-- Boost key of a confluence item. -/
def confKeyOf (r : RankedItem) : String := "confluence_" ++ strOfOpt r.item.id

/-- Boost key of a JIRA item. -/
def jiraKeyOf (r : RankedItem) : String := "jira_" ++ strOfOpt r.item.key

/-- Boost key of a code item. -/
def codeKeyOf (r : RankedItem) : String := "code_" ++ strOfOpt r.item.file_path

/-- Model of apply_correlation_boosts: apply every accumulated boost and
re-sort each source list by the new scores. -/
def applyCorrelationBoosts (cors : CrossCorrelations)
    (conf jira code : List RankedItem) :
    List RankedItem × List RankedItem × List RankedItem :=
  let entries := allCorrEntries cors
  (sortDescBy (fun r => r.ranking_score) (conf.map (boostItem entries confKeyOf)),
   sortDescBy (fun r => r.ranking_score) (jira.map (boostItem entries jiraKeyOf)),
   sortDescBy (fun r => r.ranking_score) (code.map (boostItem entries codeKeyOf)))

/-- Model of rank_all_results restricted to the three data lists: rank each
source, correlate the ranked lists, apply the boosts (the ranking_insights
object is not modelled; no claim mentions it). -/
def rankAllResults (pd : String → Option ℤ) (now : ℤ) (query : String) (uc : UserContext)
    (conf jira code : List RItem) :
    List RankedItem × List RankedItem × List RankedItem × CrossCorrelations :=
  let rc := rankConfluenceResults pd now query uc conf
  let rj := rankJiraResults pd now query uc jira
  let rk := rankCodeResults pd now query uc code
  let cors := calculateCrossSourceCorrelations pd rc rj rk query
  let b := applyCorrelationBoosts cors rc rj rk
  (b.1, b.2.1, b.2.2, cors)

/-- Model of AdvancedRankingEngine.init: the weight table is fixed and the
config argument is stored unexamined, with no validation of any kind. -/
def mkRankingEngineWeights (_config : Option SearchConfig) : List (String × ℚ) :=
  rankingWeights

/-- Modelled from the spec (claim C5): the piecewise-linear recency decay
curve that section 4.3 states for the recency factor of every item of the
Multi-Factor Ranker. -/
def specRecencyCurve (days : ℤ) : ℚ :=
  if days ≤ 1 then 1
  else if days ≤ 7 then 19/20 - ((days : ℚ) - 1) * (1/40)
  else if days ≤ 30 then 4/5 - ((days : ℚ) - 7) * (87/10000)
  else if days ≤ 90 then 3/5 - ((days : ℚ) - 30) * (33/10000)
  else if days ≤ 365 then 2/5 - ((days : ℚ) - 90) * (7/10000)
  else max (1/10) (1/5 - ((days : ℚ) - 365) * (1/10000))

/-! ## Bound lemmas for the individual factor scores -/

theorem calculateKeywordScore_bounds (q c : String) :
    0 ≤ calculateKeywordScore q c ∧ calculateKeywordScore q c ≤ 1 := by
  simp only [calculateKeywordScore]
  split_ifs with h
  · norm_num
  · refine ⟨le_min (by norm_num) (by positivity), min_le_left _ _⟩

theorem calculateFreshnessScore_bounds (m : SSMetadata) (now : ℚ) :
    0 ≤ calculateFreshnessScore m now ∧ calculateFreshnessScore m now ≤ 1 := by
  unfold calculateFreshnessScore
  rcases findNonzeroTime [m.last_modified, m.updated, m.modified, m.created] with _ | t
  · norm_num
  · simp only
    split_ifs <;> norm_num

theorem priorityLookup_bounds (s : String) :
    0 ≤ ((priorityTable.lookup s).getD (1/2)) ∧ ((priorityTable.lookup s).getD (1/2)) ≤ 1 := by
  simp only [priorityTable, List.lookup]
  repeat' split
  all_goals norm_num

theorem calculatePopularityScore_bounds (m : SSMetadata) :
    0 ≤ calculatePopularityScore m ∧ calculatePopularityScore m ≤ 1 := by
  unfold calculatePopularityScore
  refine ⟨le_min (by norm_num) ?_, min_le_left _ _⟩
  have h1 : (0:ℚ) ≤ (match m.matchesVal with
      | some n => min 1 ((n : ℚ) / 10) * (1/2)
      | none => 0) := by
    rcases m.matchesVal with _ | n
    · norm_num
    · have : (0:ℚ) ≤ min 1 ((n : ℚ) / 10) := le_min (by norm_num) (by positivity)
      simp only
      linarith
  have h2 : (0:ℚ) ≤ (match m.size with
      | some sz => if 1000 < sz ∧ sz < 100000 then (3:ℚ)/10 else 0
      | none => 0) := by
    rcases m.size with _ | sz
    · norm_num
    · simp only
      split_ifs <;> norm_num
  have h3 : (0:ℚ) ≤ (match m.priority with
      | some v => ((priorityTable.lookup (pyLower (strOfOpt v))).getD (1/2)) * (1/5)
      | none => 0) := by
    rcases m.priority with _ | v
    · norm_num
    · have := (priorityLookup_bounds (pyLower (strOfOpt v))).1
      simp only
      linarith
  linarith

theorem calculateContentRelevance_bounds (it : RItem) (q st : String) :
    0 ≤ calculateContentRelevance it q st ∧ calculateContentRelevance it q st ≤ 1 := by
  simp only [calculateContentRelevance]
  have hnn : ∀ a b c n : ℚ, 0 ≤ a → 0 ≤ b → 0 ≤ c → 0 ≤ n →
      0 ≤ (a / n + b / n * (1/2) + c / n * (3/2)) / 2 := by
    intro a b c n ha hb hc hn
    have h1 : 0 ≤ a / n := div_nonneg ha hn
    have h2 : 0 ≤ b / n := div_nonneg hb hn
    have h3 : 0 ≤ c / n := div_nonneg hc hn
    linarith
  split_ifs with h1 h2 h3 h4
  · norm_num
  · exact ⟨le_min (by norm_num)
      (hnn _ _ _ _ (by positivity) (by positivity) (by positivity) (by positivity)),
      min_le_left _ _⟩
  · exact ⟨le_min (by norm_num)
      (hnn _ _ _ _ (by positivity) (by positivity) (by positivity) (by positivity)),
      min_le_left _ _⟩
  · exact ⟨le_min (by norm_num)
      (hnn _ _ _ _ (by positivity) (by positivity) (by positivity) (by positivity)),
      min_le_left _ _⟩
  · norm_num

theorem recencyCurve_bounds (d : ℤ) : 0 ≤ recencyCurve d ∧ recencyCurve d ≤ 1 := by
  unfold recencyCurve
  split_ifs with h1 h2 h3 h4 h5
  · norm_num
  · have p1 : (1:ℚ) < (d:ℚ) := by exact_mod_cast not_le.mp h1
    have p2 : (d:ℚ) ≤ 7 := by exact_mod_cast h2
    constructor <;> linarith
  · have p1 : (7:ℚ) < (d:ℚ) := by exact_mod_cast not_le.mp h2
    have p2 : (d:ℚ) ≤ 30 := by exact_mod_cast h3
    constructor <;> linarith
  · have p1 : (30:ℚ) < (d:ℚ) := by exact_mod_cast not_le.mp h3
    have p2 : (d:ℚ) ≤ 90 := by exact_mod_cast h4
    constructor <;> linarith
  · have p1 : (90:ℚ) < (d:ℚ) := by exact_mod_cast not_le.mp h4
    have p2 : (d:ℚ) ≤ 365 := by exact_mod_cast h5
    constructor <;> linarith
  · have p1 : (365:ℚ) < (d:ℚ) := by exact_mod_cast not_le.mp h5
    constructor
    · exact le_trans (by norm_num) (le_max_left _ _)
    · exact max_le (by norm_num) (by linarith)

theorem fileRecencyCurve_bounds (d : ℤ) : 0 ≤ fileRecencyCurve d ∧ fileRecencyCurve d ≤ 1 := by
  unfold fileRecencyCurve
  split_ifs with h1 h2 h3 h4
  · norm_num
  · norm_num
  · norm_num
  · norm_num
  · have p1 : (90:ℚ) < (d:ℚ) := by exact_mod_cast not_le.mp h4
    constructor
    · exact le_trans (by norm_num) (le_max_left _ _)
    · exact max_le (by norm_num) (by linarith)

theorem calculateRecencyScore_bounds (pd : String → Option ℤ) (now : ℤ)
    (m c : Option String) :
    0 ≤ calculateRecencyScore pd now m c ∧ calculateRecencyScore pd now m c ≤ 1 := by
  unfold calculateRecencyScore
  cases ho : orTruthyStr m c with
  | none => simp only; norm_num
  | some s =>
    cases hp : pd s with
    | none => simp only [hp]; norm_num
    | some dt => simp only [hp]; exact recencyCurve_bounds _

theorem calculateFileRecencyScore_bounds (pd : String → Option ℤ) (now : ℤ) (r : RItem) :
    0 ≤ calculateFileRecencyScore pd now r ∧ calculateFileRecencyScore pd now r ≤ 1 := by
  unfold calculateFileRecencyScore
  cases hm : r.modified with
  | none => norm_num
  | some v =>
    cases v with
    | num t =>
      dsimp only
      split_ifs
      · norm_num
      · exact fileRecencyCurve_bounds _
    | str s =>
      dsimp only
      split_ifs
      · norm_num
      · cases hp : pd s with
        | none => simp only [hp]; norm_num
        | some dt => simp only [hp]; exact fileRecencyCurve_bounds _

theorem calculateTeamRelevance_bounds (r : RItem) (uc : UserContext) (st : String) :
    0 ≤ calculateTeamRelevance r uc st ∧ calculateTeamRelevance r uc st ≤ 1 := by
  simp only [calculateTeamRelevance]
  refine ⟨le_min (by norm_num) ?_, min_le_left _ _⟩
  split_ifs <;> positivity

theorem calculateConfluenceQualityScore_bounds (r : RItem) :
    0 ≤ calculateConfluenceQualityScore r ∧ calculateConfluenceQualityScore r ≤ 1 := by
  simp only [calculateConfluenceQualityScore]
  refine ⟨le_min (by norm_num) ?_, min_le_left _ _⟩
  split_ifs <;> norm_num

theorem calculateJiraQualityScore_bounds (r : RItem) :
    0 ≤ calculateJiraQualityScore r ∧ calculateJiraQualityScore r ≤ 1 := by
  simp only [calculateJiraQualityScore]
  refine ⟨le_min (by norm_num) ?_, min_le_left _ _⟩
  split_ifs <;> positivity

theorem calculateCodeQualityScore_bounds (r : RItem) :
    0 ≤ calculateCodeQualityScore r ∧ calculateCodeQualityScore r ≤ 1 := by
  simp only [calculateCodeQualityScore]
  refine ⟨le_min (by norm_num) ?_, min_le_left _ _⟩
  split_ifs <;> positivity

theorem calculatePriorityBoost_bounds (r : RItem) :
    0 ≤ calculatePriorityBoost r ∧ calculatePriorityBoost r ≤ 1 := by
  simp only [calculatePriorityBoost, List.lookup]
  repeat' split
  all_goals norm_num

theorem calculateStatusRelevance_bounds (r : RItem) (q : String) :
    0 ≤ calculateStatusRelevance r q ∧ calculateStatusRelevance r q ≤ 1 := by
  simp only [calculateStatusRelevance]
  split_ifs <;> norm_num

theorem calculateMatchDensity_bounds (r : RItem) (q : String) :
    0 ≤ calculateMatchDensity r q ∧ calculateMatchDensity r q ≤ 1 := by
  simp only [calculateMatchDensity]
  split_ifs with h
  · norm_num
  · have h1 : (0:ℚ) ≤ ((r.matchesCount.getD 0 : ℚ) / ((max (r.lines.getD 1) 1 : ℤ) : ℚ)) * 10 := by
      have : (0:ℚ) ≤ ((max (r.lines.getD 1) 1 : ℤ) : ℚ) := by
        have : (1:ℤ) ≤ max (r.lines.getD 1) 1 := le_max_right _ _
        exact_mod_cast le_trans zero_le_one this
      positivity
    constructor
    · exact le_min (by norm_num) h1
    · exact le_trans (min_le_left _ _) (by norm_num)

theorem calculateFileImportance_bounds (r : RItem) :
    0 ≤ calculateFileImportance r ∧ calculateFileImportance r ≤ 1 := by
  simp only [calculateFileImportance]
  split_ifs <;> norm_num

/-! ## Bound lemmas for correlation scoring -/

theorem termOverlapScore_nonneg (r1 r2 : RItem) (t1 t2 : String) :
    0 ≤ termOverlapScore r1 r2 t1 t2 := by
  simp only [termOverlapScore]
  split_ifs
  · norm_num
  · positivity

theorem jiraKeyIndicator_bounds (r1 r2 : RItem) (t1 t2 : String) :
    0 ≤ jiraKeyIndicator r1 r2 t1 t2 ∧ jiraKeyIndicator r1 r2 t1 t2 ≤ 1/5 := by
  simp only [jiraKeyIndicator]
  split_ifs <;> norm_num

theorem indicatorScore_nonneg (r1 r2 : RItem) (t1 t2 : String) :
    0 ≤ indicatorScore r1 r2 t1 t2 := by
  unfold indicatorScore
  have h1 := (jiraKeyIndicator_bounds r1 r2 t1 t2).1
  have h2 : (0:ℚ) ≤ (if 0 < sharedTechCount r1 r2 t1 t2
      then (sharedTechCount r1 r2 t1 t2 : ℚ) * (1/10) else 0) := by
    split_ifs <;> positivity
  linarith

theorem dateProximityCurve_bounds (d : ℤ) :
    0 ≤ dateProximityCurve d ∧ dateProximityCurve d ≤ 1 := by
  unfold dateProximityCurve
  split_ifs <;> norm_num

theorem calculateDateCorrelation_bounds (pd : String → Option ℤ) (r1 r2 : RItem)
    (t1 t2 : String) :
    0 ≤ calculateDateCorrelation pd r1 r2 t1 t2 ∧ calculateDateCorrelation pd r1 r2 t1 t2 ≤ 1 := by
  unfold calculateDateCorrelation
  cases h1 : dateOf pd r1 t1 with
  | none => simp only; norm_num
  | some a =>
    cases h2 : dateOf pd r2 t2 with
    | none => simp only; norm_num
    | some b => exact dateProximityCurve_bounds _

theorem calculateCorrelationScore_bounds (pd : String → Option ℤ) (r1 r2 : RItem)
    (t1 t2 : String) :
    0 ≤ calculateCorrelationScore pd r1 r2 t1 t2 ∧ calculateCorrelationScore pd r1 r2 t1 t2 ≤ 1 := by
  simp only [calculateCorrelationScore]
  split_ifs
  · norm_num
  · have h1 := termOverlapScore_nonneg r1 r2 t1 t2
    have h2 := indicatorScore_nonneg r1 r2 t1 t2
    have h3 := (calculateDateCorrelation_bounds pd r1 r2 t1 t2).1
    exact ⟨le_min (by norm_num) (by linarith), min_le_left _ _⟩

/-! ## Weight table values and composite bounds -/

theorem weightFor_content_relevance : weightFor "content_relevance" = 7/20 := by rfl

theorem weightFor_recency : weightFor "recency" = 1/5 := by rfl

theorem weightFor_team_relevance : weightFor "team_relevance" = 3/20 := by rfl

theorem weightFor_quality_indicators : weightFor "quality_indicators" = 1/10 := by rfl

theorem weightFor_priority_boost : weightFor "priority_boost" = 1/20 := by rfl

theorem weightFor_status_relevance : weightFor "status_relevance" = 1/20 := by rfl

theorem weightFor_match_density : weightFor "match_density" = 1/20 := by rfl

theorem weightFor_file_importance : weightFor "file_importance" = 1/20 := by rfl

theorem confluenceComposite_bounds (pd : String → Option ℤ) (now : ℤ) (q : String)
    (uc : UserContext) (it : RItem) :
    0 ≤ compositeOf (confluenceBreakdown pd now q uc it) ∧
      compositeOf (confluenceBreakdown pd now q uc it) ≤ 1 := by
  have b1 := calculateContentRelevance_bounds it q "confluence"
  have b2 := calculateRecencyScore_bounds pd now it.last_modified it.created
  have b3 := calculateTeamRelevance_bounds it uc "confluence"
  have b4 := calculateConfluenceQualityScore_bounds it
  simp only [compositeOf, confluenceBreakdown, List.map_cons, List.map_nil, List.sum_cons,
    List.sum_nil, weightFor_content_relevance, weightFor_recency, weightFor_team_relevance,
    weightFor_quality_indicators]
  constructor <;> linarith [b1.1, b1.2, b2.1, b2.2, b3.1, b3.2, b4.1, b4.2]

theorem jiraComposite_bounds (pd : String → Option ℤ) (now : ℤ) (q : String)
    (uc : UserContext) (it : RItem) :
    0 ≤ compositeOf (jiraBreakdown pd now q uc it) ∧
      compositeOf (jiraBreakdown pd now q uc it) ≤ 1 := by
  have b1 := calculateContentRelevance_bounds it q "jira"
  have b2 := calculateRecencyScore_bounds pd now it.updated it.created
  have b3 := calculateTeamRelevance_bounds it uc "jira"
  have b4 := calculateJiraQualityScore_bounds it
  have b5 := calculatePriorityBoost_bounds it
  have b6 := calculateStatusRelevance_bounds it q
  simp only [compositeOf, jiraBreakdown, List.map_cons, List.map_nil, List.sum_cons,
    List.sum_nil, weightFor_content_relevance, weightFor_recency, weightFor_team_relevance,
    weightFor_quality_indicators, weightFor_priority_boost, weightFor_status_relevance]
  constructor <;>
    linarith [b1.1, b1.2, b2.1, b2.2, b3.1, b3.2, b4.1, b4.2, b5.1, b5.2, b6.1, b6.2]

theorem codeComposite_bounds (pd : String → Option ℤ) (now : ℤ) (q : String)
    (uc : UserContext) (it : RItem) :
    0 ≤ compositeOf (codeBreakdown pd now q uc it) ∧
      compositeOf (codeBreakdown pd now q uc it) ≤ 1 := by
  have b1 := calculateContentRelevance_bounds it q "code"
  have b2 := calculateFileRecencyScore_bounds pd now it
  have b3 := calculateTeamRelevance_bounds it uc "code"
  have b4 := calculateCodeQualityScore_bounds it
  have b5 := calculateMatchDensity_bounds it q
  have b6 := calculateFileImportance_bounds it
  simp only [compositeOf, codeBreakdown, List.map_cons, List.map_nil, List.sum_cons,
    List.sum_nil, weightFor_content_relevance, weightFor_recency, weightFor_team_relevance,
    weightFor_quality_indicators, weightFor_match_density, weightFor_file_importance]
  constructor <;>
    linarith [b1.1, b1.2, b2.1, b2.2, b3.1, b3.2, b4.1, b4.2, b5.1, b5.2, b6.1, b6.2]

/-! ## Membership lemmas for the ranking pipeline -/

theorem mem_rankMap (f : RItem → List (String × ℚ)) (results : List RItem) (r : RankedItem)
    (h : r ∈ sortDescBy (fun x => x.ranking_score)
      (results.map (fun it => augmentWith (f it) it))) :
    ∃ it ∈ results, r = augmentWith (f it) it := by
  rw [mem_sortDescBy, List.mem_map] at h
  obtain ⟨it, hit, hr⟩ := h
  exact ⟨it, hit, hr.symm⟩

theorem mem_rankConfluenceResults (pd : String → Option ℤ) (now : ℤ) (q : String)
    (uc : UserContext) (results : List RItem) (r : RankedItem)
    (h : r ∈ rankConfluenceResults pd now q uc results) :
    ∃ it ∈ results, r = augmentWith (confluenceBreakdown pd now q uc it) it :=
  mem_rankMap _ _ _ h

theorem mem_rankJiraResults (pd : String → Option ℤ) (now : ℤ) (q : String)
    (uc : UserContext) (results : List RItem) (r : RankedItem)
    (h : r ∈ rankJiraResults pd now q uc results) :
    ∃ it ∈ results, r = augmentWith (jiraBreakdown pd now q uc it) it :=
  mem_rankMap _ _ _ h

theorem mem_rankCodeResults (pd : String → Option ℤ) (now : ℤ) (q : String)
    (uc : UserContext) (results : List RItem) (r : RankedItem)
    (h : r ∈ rankCodeResults pd now q uc results) :
    ∃ it ∈ results, r = augmentWith (codeBreakdown pd now q uc it) it :=
  mem_rankMap _ _ _ h

theorem mem_flatten_map_filterMap {α β γ : Type} (xs : List α) (ys : List β)
    (g : α → β → Option γ) (c : γ)
    (h : c ∈ (xs.map (fun a => ys.filterMap (g a))).flatten) :
    ∃ a ∈ xs, ∃ b ∈ ys, g a b = some c := by
  rw [List.mem_flatten] at h
  obtain ⟨L, hL, hc⟩ := h
  rw [List.mem_map] at hL
  obtain ⟨a, ha, rfl⟩ := hL
  rw [List.mem_filterMap] at hc
  obtain ⟨b, hb, hg⟩ := hc
  exact ⟨a, ha, b, hb, hg⟩

theorem crossCorrEntries_gt_half (pd : String → Option ℤ) (conf jira code : List RankedItem)
    (q : String) :
    ∀ c ∈ allCorrEntries (calculateCrossSourceCorrelations pd conf jira code q),
      1/2 < c.correlation_score := by
  intro c hc
  unfold allCorrEntries calculateCrossSourceCorrelations at hc
  simp only [List.mem_append] at hc
  rcases hc with (hc | hc) | hc
  · obtain ⟨a, _, b, _, hg⟩ := mem_flatten_map_filterMap _ _ _ _ hc
    by_cases hs : 3/5 < calculateCorrelationScore pd a.item b.item "confluence" "jira"
    · rw [if_pos hs] at hg
      obtain rfl := Option.some.inj hg
      simpa using by linarith
    · rw [if_neg hs] at hg
      exact absurd hg (by simp)
  · obtain ⟨a, _, b, _, hg⟩ := mem_flatten_map_filterMap _ _ _ _ hc
    by_cases hs : 1/2 < calculateCorrelationScore pd a.item b.item "confluence" "code"
    · rw [if_pos hs] at hg
      obtain rfl := Option.some.inj hg
      simpa using hs
    · rw [if_neg hs] at hg
      exact absurd hg (by simp)
  · obtain ⟨a, _, b, _, hg⟩ := mem_flatten_map_filterMap _ _ _ _ hc
    by_cases hs : 1/2 < calculateCorrelationScore pd a.item b.item "jira" "code"
    · rw [if_pos hs] at hg
      obtain rfl := Option.some.inj hg
      simpa using hs
    · rw [if_neg hs] at hg
      exact absurd hg (by simp)

/-! ## Boost accumulation lemmas -/

theorem totalBoost_nonneg (entries : List Correlation) (key : String)
    (h : ∀ c ∈ entries, 0 ≤ c.correlation_score) : 0 ≤ totalBoost entries key := by
  unfold totalBoost
  apply List.sum_nonneg
  intro x hx
  rw [List.mem_map] at hx
  obtain ⟨c, hc, rfl⟩ := hx
  have := h c (List.mem_of_mem_filter hc)
  linarith

theorem totalBoost_eq_zero_of_not_touched : ∀ (entries : List Correlation) (key : String),
    keyTouched entries key = false → totalBoost entries key = 0 := by
  intro entries key
  induction entries with
  | nil => intro _; simp [totalBoost]
  | cons c cs ih =>
    intro h
    simp only [keyTouched, List.any_cons, Bool.or_eq_false_iff] at h
    have hcs : keyTouched cs key = false := by
      simpa [keyTouched] using h.2
    have hrec := ih hcs
    simp only [totalBoost, List.filter_cons, h.1] at hrec ⊢
    simpa [totalBoost] using hrec

theorem boostItem_score (entries : List Correlation) (keyOf : RankedItem → String)
    (r : RankedItem) (hr : r.ranking_score ≤ 1) :
    (boostItem entries keyOf r).ranking_score
      = min 1 (r.ranking_score + totalBoost entries (keyOf r)) := by
  simp only [boostItem]
  split_ifs with h
  · rfl
  · have h0 := totalBoost_eq_zero_of_not_touched entries (keyOf r)
      (Bool.not_eq_true _ ▸ eq_false_of_ne_true h)
    simp only [h0, add_zero]
    exact (min_eq_right hr).symm

theorem mem_applyBoosts₁ (cors : CrossCorrelations) (conf jira code : List RankedItem)
    (r : RankedItem) :
    r ∈ (applyCorrelationBoosts cors conf jira code).1 ↔
      ∃ x ∈ conf, r = boostItem (allCorrEntries cors) confKeyOf x := by
  unfold applyCorrelationBoosts
  rw [mem_sortDescBy, List.mem_map]
  constructor
  · rintro ⟨x, hx, rfl⟩; exact ⟨x, hx, rfl⟩
  · rintro ⟨x, hx, rfl⟩; exact ⟨x, hx, rfl⟩

theorem mem_applyBoosts₂ (cors : CrossCorrelations) (conf jira code : List RankedItem)
    (r : RankedItem) :
    r ∈ (applyCorrelationBoosts cors conf jira code).2.1 ↔
      ∃ x ∈ jira, r = boostItem (allCorrEntries cors) jiraKeyOf x := by
  unfold applyCorrelationBoosts
  rw [mem_sortDescBy, List.mem_map]
  constructor
  · rintro ⟨x, hx, rfl⟩; exact ⟨x, hx, rfl⟩
  · rintro ⟨x, hx, rfl⟩; exact ⟨x, hx, rfl⟩

theorem mem_applyBoosts₃ (cors : CrossCorrelations) (conf jira code : List RankedItem)
    (r : RankedItem) :
    r ∈ (applyCorrelationBoosts cors conf jira code).2.2 ↔
      ∃ x ∈ code, r = boostItem (allCorrEntries cors) codeKeyOf x := by
  unfold applyCorrelationBoosts
  rw [mem_sortDescBy, List.mem_map]
  constructor
  · rintro ⟨x, hx, rfl⟩; exact ⟨x, hx, rfl⟩
  · rintro ⟨x, hx, rfl⟩; exact ⟨x, hx, rfl⟩

/-! ## Membership lemmas for the search pipeline -/

theorem buildResult_semantic (w : ScoreWeights) (q st : String) (now s : ℚ) (d : SSDoc) :
    (buildResult w q st now s d).semantic_score = s := rfl

theorem buildResult_combined (w : ScoreWeights) (q st : String) (now s : ℚ) (d : SSDoc) :
    (buildResult w q st now s d).combined_score =
      (buildResult w q st now s d).semantic_score * w.semantic +
      (buildResult w q st now s d).keyword_score * w.keyword +
      (buildResult w q st now s d).freshness_score * w.freshness +
      (buildResult w q st now s d).popularity_score * w.popularity := rfl

theorem buildResult_keyword (w : ScoreWeights) (q st : String) (now s : ℚ) (d : SSDoc) :
    (buildResult w q st now s d).keyword_score =
      calculateKeywordScore q (extractTextContent d st) := rfl

theorem buildResult_freshness (w : ScoreWeights) (q st : String) (now s : ℚ) (d : SSDoc) :
    (buildResult w q st now s d).freshness_score =
      calculateFreshnessScore (extractSSMetadata d st) now := rfl

theorem buildResult_popularity (w : ScoreWeights) (q st : String) (now s : ℚ) (d : SSDoc) :
    (buildResult w q st now s d).popularity_score =
      calculatePopularityScore (extractSSMetadata d st) := rfl

theorem mem_searchIndexRun (w : ScoreWeights) (simFn : List ℚ → List ℚ → ℚ) (qv : List ℚ)
    (idx : SearchIndex) (query st : String) (now : ℚ) (k : ℕ) (r : SearchResult)
    (h : r ∈ searchIndexRun w simFn qv idx query st now k) :
    ∃ s d, (s, d) ∈ (idx.matrixRows.map (fun row => simFn qv row)).zip idx.documents ∧
      0 < s ∧ r = buildResult w query st now s d := by
  simp only [searchIndexRun] at h
  rw [List.mem_map] at h
  obtain ⟨p, hp, hr⟩ := h
  rw [List.mem_filter] at hp
  obtain ⟨htop, hpos⟩ := hp
  obtain ⟨s, d⟩ := p
  have hmem : (s, d) ∈ sortDescBy (fun p => p.1)
      ((idx.matrixRows.map (fun row => simFn qv row)).zip idx.documents) :=
    (List.take_sublist _ _).subset htop
  rw [mem_sortDescBy] at hmem
  exact ⟨s, d, hmem, of_decide_eq_true hpos, hr.symm⟩

theorem mem_searchEngine (simFn : List ℚ → List ℚ → ℚ) (qvOf : String → List ℚ) (e : Engine)
    (query : String) (sts : Option (List String)) (limit : ℕ) (ms now : ℚ) (r : SearchResult)
    (h : r ∈ searchEngine simFn qvOf e query sts limit ms now) :
    ms ≤ r.combined_score ∧
    ∃ st idx, e.indexes.lookup st = some idx ∧
      ∃ s d, (s, d) ∈ (idx.matrixRows.map (fun row => simFn (qvOf query) row)).zip idx.documents ∧
        0 < s ∧ r = buildResult e.scoreWeights query st now s d := by
  simp only [searchEngine] at h
  have h1 := (List.take_sublist _ _).subset h
  rw [List.mem_filter] at h1
  obtain ⟨h2, hms⟩ := h1
  rw [mem_sortDescBy, List.mem_flatten] at h2
  obtain ⟨L, hL, hrL⟩ := h2
  rw [List.mem_map] at hL
  obtain ⟨st, _, rfl⟩ := hL
  cases hidx : e.indexes.lookup st with
  | none => rw [hidx] at hrL; simp at hrL
  | some idx =>
    rw [hidx] at hrL
    obtain ⟨s, d, hmem, hpos, hr⟩ := mem_searchIndexRun _ _ _ _ _ _ _ _ _ hrL
    exact ⟨of_decide_eq_true hms, st, idx, hidx, s, d, hmem, hpos, hr⟩

/-! ## Loop lemmas for find_similar_documents -/

theorem simLoop_sound (docId st : String) (limit : ℕ) :
    ∀ (pairs : List (ℚ × SSDoc)) (acc : List SearchResult),
      ((simLoop docId st limit pairs acc).length ≤ max acc.length limit) ∧
      (∀ r ∈ simLoop docId st limit pairs acc,
        r ∈ acc ∨ ∃ s d, (s, d) ∈ pairs ∧ getDocumentId d st ≠ docId ∧ 1/10 < s ∧
          r = mkSimResult st s d) := by
  intro pairs
  induction pairs with
  | nil =>
    intro acc
    refine ⟨by simp only [simLoop, List.length_reverse]; exact le_max_left acc.length limit, ?_⟩
    intro r hr
    exact Or.inl (by simp only [simLoop, List.mem_reverse] at hr; exact hr)
  | cons p rest ih =>
    intro acc
    obtain ⟨s, d⟩ := p
    simp only [simLoop]
    split_ifs with h1 h2 h3
    · refine ⟨by simp only [List.length_reverse]; exact le_max_left acc.length limit, ?_⟩
      intro r hr
      exact Or.inl (by simp only [List.mem_reverse] at hr; exact hr)
    · refine ⟨(ih acc).1, ?_⟩
      intro r hr
      rcases (ih acc).2 r hr with hin | ⟨s', d', hm, hne, hgt, hr'⟩
      · exact Or.inl hin
      · exact Or.inr ⟨s', d', List.mem_cons_of_mem _ hm, hne, hgt, hr'⟩
    · constructor
      · have hlen := (ih (mkSimResult st s d :: acc)).1
        have hlt : acc.length < limit := Nat.lt_of_not_le h1
        have hmax : max (mkSimResult st s d :: acc).length limit = limit := by
          simp only [List.length_cons]
          exact max_eq_right (Nat.succ_le_of_lt hlt)
        rw [hmax] at hlen
        exact le_trans hlen (le_max_right _ _)
      · intro r hr
        rcases (ih (mkSimResult st s d :: acc)).2 r hr with hin | ⟨s', d', hm, hne, hgt, hr'⟩
        · rcases List.mem_cons.mp hin with rfl | hin'
          · exact Or.inr ⟨s, d, List.mem_cons_self _ _, h2, h3, rfl⟩
          · exact Or.inl hin'
        · exact Or.inr ⟨s', d', List.mem_cons_of_mem _ hm, hne, hgt, hr'⟩
    · refine ⟨(ih acc).1, ?_⟩
      intro r hr
      rcases (ih acc).2 r hr with hin | ⟨s', d', hm, hne, hgt, hr'⟩
      · exact Or.inl hin
      · exact Or.inr ⟨s', d', List.mem_cons_of_mem _ hm, hne, hgt, hr'⟩

/-! ## Claim theorems -/

/-- Claim C4: calling build_index with an empty document list returns false
and raises no exception (the model is a total function returning the
unchanged engine), and a subsequent search restricted to that source type,
which therefore still has no index, returns an empty list rather than
raising an error. -/
theorem c4_empty_build_index (fit : List SSDoc → String → Option SearchIndex) (e : Engine)
    (st query : String) (limit : ℕ) (min_score now : ℚ)
    (simFn : List ℚ → List ℚ → ℚ) (qvOf : String → List ℚ)
    (hno : e.indexes.lookup st = none) :
    buildIndex fit e [] st = (false, e) ∧
    searchEngine simFn qvOf (buildIndex fit e [] st).2 query (some [st]) limit min_score
      now = [] := by
  have h1 : buildIndex fit e [] st = (false, e) := by simp [buildIndex]
  refine ⟨h1, ?_⟩
  rw [h1]
  simp [searchEngine, hno, sortDescBy, List.insertionSort]

/-- Witness for C4 at a concrete engine with no indexes. -/
theorem c4_empty_build_index_witness :
    buildIndex (fun _ _ => none) ({} : Engine) [] "confluence" = (false, ({} : Engine)) ∧
    searchEngine (fun _ _ => 0) (fun _ => [])
      (buildIndex (fun _ _ => none) ({} : Engine) [] "confluence").2
      "oauth" (some ["confluence"]) 5 (1/10) 0 = [] :=
  c4_empty_build_index _ _ _ _ _ _ _ _ _ rfl

/-- Claim C10: find_similar_documents returns an empty list without raising
when no index exists for the source type or when the document id has no
embedding in that index; every returned neighbour is a document other than
the queried one (its id differs), has cosine similarity strictly above 0.1,
and at most limit results are returned. -/
theorem c10_find_similar (simFn : List ℚ → List ℚ → ℚ) (e : Engine)
    (document_id st : String) (limit : ℕ) :
    (e.indexes.lookup st = none → findSimilarDocuments simFn e document_id st limit = []) ∧
    (∀ idx, e.indexes.lookup st = some idx →
      idx.document_embeddings.lookup document_id = none →
      findSimilarDocuments simFn e document_id st limit = []) ∧
    (∀ r ∈ findSimilarDocuments simFn e document_id st limit,
      r.source ≠ document_id ∧ 1/10 < r.semantic_score) ∧
    (findSimilarDocuments simFn e document_id st limit).length ≤ limit := by
  refine ⟨?_, ?_, ?_, ?_⟩
  · intro h
    simp only [findSimilarDocuments, h]
  · intro idx h1 h2
    simp only [findSimilarDocuments, h1, h2]
  · intro r hr
    unfold findSimilarDocuments at hr
    cases hidx : e.indexes.lookup st with
    | none => simp only [hidx] at hr; simp at hr
    | some idx =>
      simp only [hidx] at hr
      cases hemb : idx.document_embeddings.lookup document_id with
      | none => simp only [hemb] at hr; simp at hr
      | some emb =>
        simp only [hemb] at hr
        rcases (simLoop_sound document_id st limit
            (sortDescBy (fun p => p.1)
              ((idx.matrixRows.map (fun row => simFn emb row)).zip idx.documents)) []).2 r hr with
          hin | ⟨s, d, _, hne, hgt, hr'⟩
        · simp at hin
        · subst hr'
          exact ⟨hne, hgt⟩
  · unfold findSimilarDocuments
    cases hidx : e.indexes.lookup st with
    | none => simp
    | some idx =>
      cases hemb : idx.document_embeddings.lookup document_id with
      | none => simp [hemb]
      | some emb =>
        have hlen := (simLoop_sound document_id st limit
            (sortDescBy (fun p => p.1)
              ((idx.matrixRows.map (fun row => simFn emb row)).zip idx.documents)) []).1
        simpa [hemb] using hlen

theorem confluenceBreakdown_lookup_recency (pd : String → Option ℤ) (now : ℤ) (q : String)
    (uc : UserContext) (it : RItem) :
    (confluenceBreakdown pd now q uc it).lookup "recency" =
      some (calculateRecencyScore pd now it.last_modified it.created) := rfl

theorem jiraBreakdown_lookup_recency (pd : String → Option ℤ) (now : ℤ) (q : String)
    (uc : UserContext) (it : RItem) :
    (jiraBreakdown pd now q uc it).lookup "recency" =
      some (calculateRecencyScore pd now it.updated it.created) := rfl

theorem codeBreakdown_lookup_recency (pd : String → Option ℤ) (now : ℤ) (q : String)
    (uc : UserContext) (it : RItem) :
    (codeBreakdown pd now q uc it).lookup "recency" =
      some (calculateFileRecencyScore pd now it) := rfl

/-- Claim C5 counterexample: a code item whose numeric timestamp parses to
an age of exactly 7 days is ranked with recency 0.9 (the file recency
curve), while the claimed piecewise-linear curve prescribes
0.95 - 0.025 * 6 = 0.8 at 7 days, so the claim fails for the code source. -/
theorem c5_counterexample :
    ((rankCodeResults (fun _ => none) 8 "q" {} [{ modified := some (TsVal.num 1) }]).map
      (fun r => r.ranking_breakdown.lookup "recency")) = [some (9/10)] ∧
    specRecencyCurve 7 = 4/5 ∧
    ¬ ((9 : ℚ)/10 = 4/5) := by
  refine ⟨?_, ?_, by norm_num⟩
  · have h1 : rankCodeResults (fun _ => none) 8 "q" {}
        [{ modified := some (TsVal.num 1) }] =
        [augmentWith (codeBreakdown (fun _ => none) 8 "q" {}
          { modified := some (TsVal.num 1) }) { modified := some (TsVal.num 1) }] := rfl
    rw [h1]
    simp only [List.map_cons, List.map_nil, augmentWith]
    rw [codeBreakdown_lookup_recency]
    norm_num [calculateFileRecencyScore, fileRecencyCurve]
  · norm_num [specRecencyCurve]

/-- Claim C5 amended: for confluence and jira items whose timestamp parses
to an age of days days the recency factor equals the claimed
piecewise-linear curve (the source curve coincides with it pointwise), but
for code items the recency factor instead follows the coarser file recency
curve days<=1 -> 1.0, <=7 -> 0.9, <=30 -> 0.7, <=90 -> 0.5, else
max(0.2, 0.5 - 0.001*(days-90)). -/
theorem c5_amended (pd : String → Option ℤ) (now : ℤ) (query : String) (uc : UserContext) :
    (∀ d : ℤ, recencyCurve d = specRecencyCurve d) ∧
    (∀ (items : List RItem) (r : RankedItem), r ∈ rankConfluenceResults pd now query uc items →
      ∀ s dt, orTruthyStr r.item.last_modified r.item.created = some s → pd s = some dt →
        r.ranking_breakdown.lookup "recency" = some (specRecencyCurve (now - dt))) ∧
    (∀ (items : List RItem) (r : RankedItem), r ∈ rankJiraResults pd now query uc items →
      ∀ s dt, orTruthyStr r.item.updated r.item.created = some s → pd s = some dt →
        r.ranking_breakdown.lookup "recency" = some (specRecencyCurve (now - dt))) ∧
    (∀ (items : List RItem) (r : RankedItem), r ∈ rankCodeResults pd now query uc items →
      ∀ t : ℤ, r.item.modified = some (TsVal.num t) → t ≠ 0 →
        r.ranking_breakdown.lookup "recency" = some (fileRecencyCurve (now - t))) := by
  refine ⟨fun d => rfl, ?_, ?_, ?_⟩
  · intro items r hr s dt h1 h2
    obtain ⟨it, _, rfl⟩ := mem_rankConfluenceResults pd now query uc items r hr
    simp only [augmentWith] at h1 ⊢
    rw [confluenceBreakdown_lookup_recency]
    unfold calculateRecencyScore
    simp only [h1, h2]
    rfl
  · intro items r hr s dt h1 h2
    obtain ⟨it, _, rfl⟩ := mem_rankJiraResults pd now query uc items r hr
    simp only [augmentWith] at h1 ⊢
    rw [jiraBreakdown_lookup_recency]
    unfold calculateRecencyScore
    simp only [h1, h2]
    rfl
  · intro items r hr t h1 h2
    obtain ⟨it, _, rfl⟩ := mem_rankCodeResults pd now query uc items r hr
    simp only [augmentWith] at h1 ⊢
    rw [codeBreakdown_lookup_recency]
    unfold calculateFileRecencyScore
    simp only [h1, if_neg h2]

/-- Parse function used by the C5 witness. -/
def pdW5 : String → Option ℤ := fun s => if s = "D1" then some 1 else none

/-- Item used by the C5 witness. -/
def c5WitnessItem : RItem := { last_modified := some "D1" }

/-- Witness for C5 amended at a concrete confluence item seven days old. -/
theorem c5_amended_witness :
    (augmentWith (confluenceBreakdown pdW5 8 "q" {} c5WitnessItem)
      c5WitnessItem).ranking_breakdown.lookup "recency" = some (specRecencyCurve (8 - 1)) :=
  (c5_amended pdW5 8 "q" {}).2.1 [c5WitnessItem] _
    (by simp [rankConfluenceResults, mem_sortDescBy]) "D1" 1 (by decide) (by decide)

/-- Configuration used by the C6 counterexample (weights sum to 2.1). -/
def badConfig : SearchConfig :=
  { semantic_weight := some (9/10), keyword_weight := some (9/10),
    freshness_weight := some (3/20), popularity_weight := some (3/20) }

/-- Result with all four factor scores equal to 1, used for C6. -/
def allOnesResult : SearchResult :=
  { content := "", source := "", source_type := "jira", title := "",
    semantic_score := 1, keyword_score := 1, freshness_score := 1, popularity_score := 1 }

/-- Claim C6 counterexample: a configuration whose four weights sum to 2.1
is accepted by construction without any validation (init is total and
stores the weights verbatim), and the engine instance then produces a
combined score of 2.1 > 1 instead of having been rejected. -/
theorem c6_counterexample :
    (mkEngine badConfig).scoreWeights.semantic + (mkEngine badConfig).scoreWeights.keyword +
      (mkEngine badConfig).scoreWeights.freshness +
      (mkEngine badConfig).scoreWeights.popularity = 21/10 ∧
    calculateCombinedScore (mkEngine badConfig).scoreWeights allOnesResult = 21/10 ∧
    ¬ calculateCombinedScore (mkEngine badConfig).scoreWeights allOnesResult ≤ 1 := by
  refine ⟨?_, ?_, ?_⟩
  · norm_num [mkEngine, mkScoreWeights, badConfig]
  · norm_num [calculateCombinedScore, mkEngine, mkScoreWeights, badConfig, allOnesResult]
  · norm_num [calculateCombinedScore, mkEngine, mkScoreWeights, badConfig, allOnesResult]

/-- Claim C6 amended: construction never rejects a configuration: init
stores the configured weights verbatim (applying only the documented
defaults), and the combined score of a result whose four factor scores are
all 1 equals the configured weight sum even when that sum is not 1 —
invalid weights are silently accepted and flow into the scores.  The
ranking engine init likewise stores its config unexamined with a fixed
weight table. -/
theorem c6_amended (c : SearchConfig) (cfg : Option SearchConfig) (r : SearchResult)
    (h1 : r.semantic_score = 1) (h2 : r.keyword_score = 1)
    (h3 : r.freshness_score = 1) (h4 : r.popularity_score = 1) :
    (mkEngine c).scoreWeights = mkScoreWeights c ∧
    mkRankingEngineWeights cfg = rankingWeights ∧
    calculateCombinedScore (mkEngine c).scoreWeights r =
      c.semantic_weight.getD (2/5) + c.keyword_weight.getD (3/10) +
      c.freshness_weight.getD (3/20) + c.popularity_weight.getD (3/20) := by
  refine ⟨rfl, rfl, ?_⟩
  simp [calculateCombinedScore, mkEngine, mkScoreWeights, h1, h2, h3, h4]

/-- Witness for C6 amended at the concrete invalid configuration. -/
theorem c6_amended_witness :
    (mkEngine badConfig).scoreWeights = mkScoreWeights badConfig ∧
    mkRankingEngineWeights none = rankingWeights ∧
    calculateCombinedScore (mkEngine badConfig).scoreWeights allOnesResult =
      badConfig.semantic_weight.getD (2/5) + badConfig.keyword_weight.getD (3/10) +
      badConfig.freshness_weight.getD (3/20) + badConfig.popularity_weight.getD (3/20) :=
  c6_amended badConfig none allOnesResult rfl rfl rfl rfl

/-- Claim C8 counterexample: the freshness score reads the wall clock,
which is not among the claim's inputs; identical metadata scored at two
different instants (six days and eight days after the document timestamp)
yields 1.0 and 0.8 respectively, so two runs with identical inputs are not
guaranteed identical scores. -/
theorem c8_counterexample :
    calculateFreshnessScore { updated := some 86400 } (86400 + 6 * 86400) = 1 ∧
    calculateFreshnessScore { updated := some 86400 } (86400 + 8 * 86400) = 4/5 ∧
    calculateFreshnessScore { updated := some 86400 } (86400 + 6 * 86400) ≠
      calculateFreshnessScore { updated := some 86400 } (86400 + 8 * 86400) := by
  have h6 : calculateFreshnessScore { updated := some 86400 } (86400 + 6 * 86400) = 1 := by
    norm_num [calculateFreshnessScore, findNonzeroTime]
  have h8 : calculateFreshnessScore { updated := some 86400 } (86400 + 8 * 86400) = 4/5 := by
    norm_num [calculateFreshnessScore, findNonzeroTime]
  refine ⟨h6, h8, ?_⟩
  rw [h6, h8]
  norm_num

/-- Claim C8 amended: with the clock made an explicit input, both pipelines
are deterministic pure functions: identical inputs together with an
identical clock reading give identical orderings and scores; the clock is
the only hidden input and there is no randomness. -/
theorem c8_amended (simFn : List ℚ → List ℚ → ℚ) (qvOf : String → List ℚ) (e : Engine)
    (query : String) (sts : Option (List String)) (limit : ℕ) (ms : ℚ) (now1 now2 : ℚ)
    (pd : String → Option ℤ) (rnow1 rnow2 : ℤ) (rq : String) (uc : UserContext)
    (conf jira code : List RItem)
    (hs : now1 = now2) (hr : rnow1 = rnow2) :
    searchEngine simFn qvOf e query sts limit ms now1 =
      searchEngine simFn qvOf e query sts limit ms now2 ∧
    rankAllResults pd rnow1 rq uc conf jira code =
      rankAllResults pd rnow2 rq uc conf jira code := by
  subst hs
  subst hr
  exact ⟨rfl, rfl⟩

/-- Witness for C8 amended at concrete inputs and equal clock readings. -/
theorem c8_amended_witness :
    searchEngine (fun _ _ => 0) (fun _ => []) ({} : Engine) "q" none 5 (1/10) 0 =
      searchEngine (fun _ _ => 0) (fun _ => []) ({} : Engine) "q" none 5 (1/10) 0 ∧
    rankAllResults (fun _ => none) 0 "q" {} [] [] [] =
      rankAllResults (fun _ => none) 0 "q" {} [] [] [] :=
  c8_amended _ _ _ _ _ _ _ _ _ _ _ _ _ _ _ _ _ rfl rfl

/-- Claim C3: every item of the boosted output arises from an input item by
the boost update; for an item with in-range score the post-boost
ranking_score is min(1, original + total boost), where the total boost sums
strength times 0.1 over every correlation touching the item's key before
clamping; and an item whose accumulated boost exceeds 1 - original ends at
exactly 1. -/
theorem c3_boost_clamp (cors : CrossCorrelations) (conf jira code : List RankedItem) :
    (∀ r' ∈ (applyCorrelationBoosts cors conf jira code).1,
      ∃ r ∈ conf, r' = boostItem (allCorrEntries cors) confKeyOf r) ∧
    (∀ r' ∈ (applyCorrelationBoosts cors conf jira code).2.1,
      ∃ r ∈ jira, r' = boostItem (allCorrEntries cors) jiraKeyOf r) ∧
    (∀ r' ∈ (applyCorrelationBoosts cors conf jira code).2.2,
      ∃ r ∈ code, r' = boostItem (allCorrEntries cors) codeKeyOf r) ∧
    (∀ (keyOf : RankedItem → String) (r : RankedItem), r.ranking_score ≤ 1 →
      (boostItem (allCorrEntries cors) keyOf r).ranking_score =
        min 1 (r.ranking_score + totalBoost (allCorrEntries cors) (keyOf r)) ∧
      totalBoost (allCorrEntries cors) (keyOf r) =
        (((allCorrEntries cors).filter
            (fun c => (corrKeys c).contains (keyOf r))).map
          (fun c => c.correlation_score * (1/10))).sum ∧
      (1 - r.ranking_score < totalBoost (allCorrEntries cors) (keyOf r) →
        (boostItem (allCorrEntries cors) keyOf r).ranking_score = 1)) := by
  refine ⟨?_, ?_, ?_, ?_⟩
  · intro r' h
    exact (mem_applyBoosts₁ cors conf jira code r').mp h
  · intro r' h
    exact (mem_applyBoosts₂ cors conf jira code r').mp h
  · intro r' h
    exact (mem_applyBoosts₃ cors conf jira code r').mp h
  · intro keyOf r hr
    refine ⟨boostItem_score _ _ _ hr, rfl, ?_⟩
    intro hgt
    rw [boostItem_score _ _ _ hr]
    exact min_eq_left (by linarith)

/-- Correlation entry used by the C3 witness. -/
def c3Entry : Correlation := { jira_key := some (some "K"), correlation_score := 4/5 }

/-- Correlations record used by the C3 witness. -/
def c3Cors : CrossCorrelations :=
  { confluence_jira := [], confluence_code := [], jira_code := [c3Entry],
    strong_correlations := [c3Entry] }

/-- Result dict wrapped by the C3 witness item. -/
def c3ItemInner : RItem := { key := some "K" }

/-- Ranked item used by the C3 witness (score 0.98, boost 0.08). -/
def c3Item : RankedItem :=
  { item := c3ItemInner, ranking_score := 49/50, ranking_breakdown := [] }

theorem c3_totalBoost : totalBoost (allCorrEntries c3Cors) (jiraKeyOf c3Item) = 2/25 := by
  have hk : (corrKeys c3Entry).contains (jiraKeyOf c3Item) = true := by
    simp [corrKeys, c3Entry, jiraKeyOf, c3Item, c3ItemInner, strOfOpt]
  simp only [totalBoost, allCorrEntries, c3Cors, List.nil_append, List.filter, hk,
    List.map_cons, List.map_nil, List.sum_cons, List.sum_nil]
  norm_num [c3Entry]

/-- Witness for C3: the accumulated boost 0.08 exceeds 1 - 0.98, and the
post-boost score is exactly 1. -/
theorem c3_boost_clamp_witness :
    (boostItem (allCorrEntries c3Cors) jiraKeyOf c3Item).ranking_score = 1 :=
  ((c3_boost_clamp c3Cors [] [c3Item] []).2.2.2 jiraKeyOf c3Item
      (by norm_num [c3Item])).2.2
    (by rw [c3_totalBoost]; norm_num [c3Item])

/-- Claim C7: a cross-source pair with zero term overlap, no shared
technical-vocabulary term, and date proximity 0.2 has correlation strength
at most 0.08; 0.08 is below every recording threshold, and every entry that
calculate_cross_source_correlations records has strength strictly above
0.5, so such a pair is never recorded in any correlation list. -/
theorem c7_correlation_floor (pd : String → Option ℤ) (r1 r2 : RItem) (t1 t2 : String)
    (hov : termOverlapScore r1 r2 t1 t2 = 0)
    (htech : sharedTechCount r1 r2 t1 t2 = 0)
    (hdate : calculateDateCorrelation pd r1 r2 t1 t2 = 1/5) :
    calculateCorrelationScore pd r1 r2 t1 t2 ≤ 2/25 ∧
    (2 : ℚ)/25 < 1/2 ∧
    (∀ (conf jira code : List RankedItem) (q : String),
      ∀ c ∈ allCorrEntries (calculateCrossSourceCorrelations pd conf jira code q),
        1/2 < c.correlation_score) := by
  refine ⟨?_, by norm_num, fun conf jira code q => crossCorrEntries_gt_half pd conf jira code q⟩
  simp only [calculateCorrelationScore]
  split_ifs with h
  · norm_num
  · have hj := jiraKeyIndicator_bounds r1 r2 t1 t2
    have h2 : indicatorScore r1 r2 t1 t2 ≤ 1/5 := by
      unfold indicatorScore
      rw [htech]
      simpa using hj.2
    have h3 := indicatorScore_nonneg r1 r2 t1 t2
    rw [hov, hdate]
    have h4 := min_le_right (1:ℚ)
      (0 * (3/5) + indicatorScore r1 r2 t1 t2 * (3/10) + 1/5 * (1/10))
    linarith

/-- Parse function used by the C7 witness. -/
def pdW7 : String → Option ℤ := fun s => if s = "D100" then some 100 else none

/-- JIRA item used by the C7 witness. -/
def c7jira : RItem := { summary := some "alpha beta gamma", updated := some "D100" }

/-- Code item used by the C7 witness (modified 100 days before the issue
update, giving date proximity 0.2, and sharing no term). -/
def c7code : RItem := { file_path := some "xyz", modified := some (TsVal.num 0) }

theorem c7_hov : termOverlapScore c7jira c7code "jira" "code" = 0 := by
  have hne : ((corrTermsOf c7jira "jira").isEmpty ||
      (corrTermsOf c7code "code").isEmpty) = false := by decide
  simp only [termOverlapScore, hne, Bool.false_eq_true, if_false]
  simp
  exact Or.inl (by decide)

theorem c7_htech : sharedTechCount c7jira c7code "jira" "code" = 0 := by decide

theorem c7_hdate : calculateDateCorrelation pdW7 c7jira c7code "jira" "code" = 1/5 := by
  have h1 : dateOf pdW7 c7jira "jira" = some 100 := by decide
  have h2 : dateOf pdW7 c7code "code" = some 0 := by decide
  norm_num [calculateDateCorrelation, h1, h2, dateProximityCurve]

/-- Witness for C7 at a concrete jira/code pair. -/
theorem c7_correlation_floor_witness :
    calculateCorrelationScore pdW7 c7jira c7code "jira" "code" ≤ 2/25 :=
  (c7_correlation_floor pdW7 c7jira c7code "jira" "code" c7_hov c7_htech c7_hdate).1

/-- Claim C2: with the default weights, every returned result's combined
score equals 0.4 semantic + 0.3 keyword + 0.15 freshness + 0.15 popularity
of its own factor scores, the output is sorted by combined score
descending, every element clears min_score, and at most limit results are
returned. -/
theorem c2_search_contract (simFn : List ℚ → List ℚ → ℚ) (qvOf : String → List ℚ)
    (e : Engine) (query : String) (sts : Option (List String))
    (limit : ℕ) (min_score now : ℚ)
    (hw : e.scoreWeights = defaultScoreWeights) :
    (∀ r ∈ searchEngine simFn qvOf e query sts limit min_score now,
      r.combined_score = r.semantic_score * (2/5) + r.keyword_score * (3/10) +
        r.freshness_score * (3/20) + r.popularity_score * (3/20)) ∧
    List.Pairwise (fun a b => b.combined_score ≤ a.combined_score)
      (searchEngine simFn qvOf e query sts limit min_score now) ∧
    (∀ r ∈ searchEngine simFn qvOf e query sts limit min_score now,
      min_score ≤ r.combined_score) ∧
    (searchEngine simFn qvOf e query sts limit min_score now).length ≤ limit := by
  refine ⟨?_, ?_, ?_, ?_⟩
  · intro r hr
    obtain ⟨-, st, idx, -, s, d, -, -, hr'⟩ :=
      mem_searchEngine simFn qvOf e query sts limit min_score now r hr
    subst hr'
    rw [buildResult_combined, hw]
    norm_num [defaultScoreWeights, mkScoreWeights]
  · simp only [searchEngine]
    exact List.Pairwise.sublist (List.take_sublist _ _)
      (List.Pairwise.filter _ (pairwise_sortDescBy _ _))
  · intro r hr
    exact (mem_searchEngine simFn qvOf e query sts limit min_score now r hr).1
  · simp only [searchEngine]
    exact List.length_take_le _ _

/-- Claim C9: every result returned by search carries a strictly positive
cosine similarity: each output element is built from an index pair whose
similarity is strictly greater than zero (the filter runs before the
combined score is computed), so a document whose cosine similarity against
the query is exactly 0 never appears in the output, regardless of its other
factor scores and regardless of min_score. -/
theorem c9_zero_similarity_excluded (simFn : List ℚ → List ℚ → ℚ)
    (qvOf : String → List ℚ) (e : Engine) (query : String) (sts : Option (List String))
    (limit : ℕ) (min_score now : ℚ) :
    ∀ r ∈ searchEngine simFn qvOf e query sts limit min_score now,
      0 < r.semantic_score ∧
      ∃ st idx s d, e.indexes.lookup st = some idx ∧
        (s, d) ∈ (idx.matrixRows.map (fun row => simFn (qvOf query) row)).zip idx.documents ∧
        0 < s ∧ r = buildResult e.scoreWeights query st now s d := by
  intro r hr
  obtain ⟨-, st, idx, hidx, s, d, hmem, hpos, hr'⟩ :=
    mem_searchEngine simFn qvOf e query sts limit min_score now r hr
  subst hr'
  exact ⟨hpos, st, idx, s, d, hidx, hmem, hpos, rfl⟩

theorem confluenceBreakdown_entry_bounds (pd : String → Option ℤ) (now : ℤ) (q : String)
    (uc : UserContext) (it : RItem) :
    ∀ p ∈ confluenceBreakdown pd now q uc it, 0 ≤ p.2 ∧ p.2 ≤ 1 := by
  intro p hp
  simp only [confluenceBreakdown, List.mem_cons, List.not_mem_nil, or_false] at hp
  rcases hp with rfl | rfl | rfl | rfl
  · exact calculateContentRelevance_bounds it q "confluence"
  · exact calculateRecencyScore_bounds pd now it.last_modified it.created
  · exact calculateTeamRelevance_bounds it uc "confluence"
  · exact calculateConfluenceQualityScore_bounds it

theorem jiraBreakdown_entry_bounds (pd : String → Option ℤ) (now : ℤ) (q : String)
    (uc : UserContext) (it : RItem) :
    ∀ p ∈ jiraBreakdown pd now q uc it, 0 ≤ p.2 ∧ p.2 ≤ 1 := by
  intro p hp
  simp only [jiraBreakdown, List.mem_cons, List.not_mem_nil, or_false] at hp
  rcases hp with rfl | rfl | rfl | rfl | rfl | rfl
  · exact calculateContentRelevance_bounds it q "jira"
  · exact calculateRecencyScore_bounds pd now it.updated it.created
  · exact calculateTeamRelevance_bounds it uc "jira"
  · exact calculateJiraQualityScore_bounds it
  · exact calculatePriorityBoost_bounds it
  · exact calculateStatusRelevance_bounds it q

theorem codeBreakdown_entry_bounds (pd : String → Option ℤ) (now : ℤ) (q : String)
    (uc : UserContext) (it : RItem) :
    ∀ p ∈ codeBreakdown pd now q uc it, 0 ≤ p.2 ∧ p.2 ≤ 1 := by
  intro p hp
  simp only [codeBreakdown, List.mem_cons, List.not_mem_nil, or_false] at hp
  rcases hp with rfl | rfl | rfl | rfl | rfl | rfl
  · exact calculateContentRelevance_bounds it q "code"
  · exact calculateFileRecencyScore_bounds pd now it
  · exact calculateTeamRelevance_bounds it uc "code"
  · exact calculateCodeQualityScore_bounds it
  · exact calculateMatchDensity_bounds it q
  · exact calculateFileImportance_bounds it

theorem augmentWith_score (bd : List (String × ℚ)) (it : RItem) :
    (augmentWith bd it).ranking_score = compositeOf bd := rfl

theorem augmentWith_breakdown (bd : List (String × ℚ)) (it : RItem) :
    (augmentWith bd it).ranking_breakdown = bd := rfl

theorem boostItem_bounds (entries : List Correlation) (keyOf : RankedItem → String)
    (r : RankedItem) (h0 : 0 ≤ r.ranking_score) (h1 : r.ranking_score ≤ 1)
    (hent : ∀ c ∈ entries, 0 ≤ c.correlation_score) :
    (0 ≤ (boostItem entries keyOf r).ranking_score ∧
      (boostItem entries keyOf r).ranking_score ≤ 1) ∧
    (boostItem entries keyOf r).ranking_breakdown = r.ranking_breakdown := by
  simp only [boostItem]
  split_ifs with h
  · have hb := totalBoost_nonneg entries (keyOf r) hent
    exact ⟨⟨le_min (by norm_num) (by linarith), min_le_left _ _⟩, rfl⟩
  · exact ⟨⟨h0, h1⟩, rfl⟩

theorem combinedDefault_bounds (r : SearchResult)
    (h1 : 0 ≤ r.semantic_score) (h2 : r.semantic_score ≤ 1)
    (h3 : 0 ≤ r.keyword_score) (h4 : r.keyword_score ≤ 1)
    (h5 : 0 ≤ r.freshness_score) (h6 : r.freshness_score ≤ 1)
    (h7 : 0 ≤ r.popularity_score) (h8 : r.popularity_score ≤ 1) :
    0 ≤ calculateCombinedScore defaultScoreWeights r ∧
      calculateCombinedScore defaultScoreWeights r ≤ 1 := by
  unfold calculateCombinedScore defaultScoreWeights mkScoreWeights
  simp only [Option.getD]
  constructor <;> nlinarith

/-- Claim C1: every individual factor score of the engine (search path:
keyword, freshness, popularity, and the semantic score of every returned
result; ranking path: content_relevance, recency, file recency,
team_relevance, the three quality scores, priority_boost, status_relevance,
match_density, file_importance) and every composite score (the search
combined_score under the default weights, the correlation strength, and the
ranking_score of every item of the full ranking pipeline including
correlation boosts, together with every value of its breakdown) lies in
[0,1].  The upper bound for the semantic score is the Cauchy-Schwarz
property of cosine similarity, stated as the hypothesis on simFn and proved
for L2-normalized rational vectors in dotProd_le_one_of_unit; the lower
bound comes from the engine's strictly-positive-similarity filter. -/
theorem c1_score_bounds :
    (∀ q c, 0 ≤ calculateKeywordScore q c ∧ calculateKeywordScore q c ≤ 1) ∧
    (∀ m now, 0 ≤ calculateFreshnessScore m now ∧ calculateFreshnessScore m now ≤ 1) ∧
    (∀ m, 0 ≤ calculatePopularityScore m ∧ calculatePopularityScore m ≤ 1) ∧
    (∀ it q st, 0 ≤ calculateContentRelevance it q st ∧
      calculateContentRelevance it q st ≤ 1) ∧
    (∀ pd now mo cr, 0 ≤ calculateRecencyScore pd now mo cr ∧
      calculateRecencyScore pd now mo cr ≤ 1) ∧
    (∀ pd now r, 0 ≤ calculateFileRecencyScore pd now r ∧
      calculateFileRecencyScore pd now r ≤ 1) ∧
    (∀ r uc st, 0 ≤ calculateTeamRelevance r uc st ∧ calculateTeamRelevance r uc st ≤ 1) ∧
    (∀ r, 0 ≤ calculateConfluenceQualityScore r ∧ calculateConfluenceQualityScore r ≤ 1) ∧
    (∀ r, 0 ≤ calculateJiraQualityScore r ∧ calculateJiraQualityScore r ≤ 1) ∧
    (∀ r, 0 ≤ calculateCodeQualityScore r ∧ calculateCodeQualityScore r ≤ 1) ∧
    (∀ r, 0 ≤ calculatePriorityBoost r ∧ calculatePriorityBoost r ≤ 1) ∧
    (∀ r q, 0 ≤ calculateStatusRelevance r q ∧ calculateStatusRelevance r q ≤ 1) ∧
    (∀ r q, 0 ≤ calculateMatchDensity r q ∧ calculateMatchDensity r q ≤ 1) ∧
    (∀ r, 0 ≤ calculateFileImportance r ∧ calculateFileImportance r ≤ 1) ∧
    (∀ pd r1 r2 t1 t2, 0 ≤ calculateCorrelationScore pd r1 r2 t1 t2 ∧
      calculateCorrelationScore pd r1 r2 t1 t2 ≤ 1) ∧
    (∀ (simFn : List ℚ → List ℚ → ℚ) (qvOf : String → List ℚ) (e : Engine) query sts limit
        ms now, (∀ v w, simFn v w ≤ 1) → e.scoreWeights = defaultScoreWeights →
      ∀ r ∈ searchEngine simFn qvOf e query sts limit ms now,
        (0 < r.semantic_score ∧ r.semantic_score ≤ 1) ∧
        (0 ≤ r.keyword_score ∧ r.keyword_score ≤ 1) ∧
        (0 ≤ r.freshness_score ∧ r.freshness_score ≤ 1) ∧
        (0 ≤ r.popularity_score ∧ r.popularity_score ≤ 1) ∧
        (0 ≤ r.combined_score ∧ r.combined_score ≤ 1)) ∧
    (∀ (pd : String → Option ℤ) (now : ℤ) query uc conf jira code,
      ∀ r ∈ (rankAllResults pd now query uc conf jira code).1 ++
          (rankAllResults pd now query uc conf jira code).2.1 ++
          (rankAllResults pd now query uc conf jira code).2.2.1,
        (0 ≤ r.ranking_score ∧ r.ranking_score ≤ 1) ∧
        ∀ p ∈ r.ranking_breakdown, 0 ≤ p.2 ∧ p.2 ≤ 1) := by
  refine ⟨calculateKeywordScore_bounds, calculateFreshnessScore_bounds,
    calculatePopularityScore_bounds, calculateContentRelevance_bounds,
    calculateRecencyScore_bounds, calculateFileRecencyScore_bounds,
    calculateTeamRelevance_bounds, calculateConfluenceQualityScore_bounds,
    calculateJiraQualityScore_bounds, calculateCodeQualityScore_bounds,
    calculatePriorityBoost_bounds, calculateStatusRelevance_bounds,
    calculateMatchDensity_bounds, calculateFileImportance_bounds,
    calculateCorrelationScore_bounds, ?_, ?_⟩
  · intro simFn qvOf e query sts limit ms now hsim hw r hr
    obtain ⟨-, st, idx, -, s, d, hmem, hpos, hr'⟩ :=
      mem_searchEngine simFn qvOf e query sts limit ms now r hr
    have hs_le : s ≤ 1 := by
      have hin : s ∈ idx.matrixRows.map (fun row => simFn (qvOf query) row) :=
        (List.of_mem_zip hmem).1
      rw [List.mem_map] at hin
      obtain ⟨row, -, hrow⟩ := hin
      rw [← hrow]
      exact hsim _ _
    subst hr'
    have hk := calculateKeywordScore_bounds query (extractTextContent d st)
    have hf := calculateFreshnessScore_bounds (extractSSMetadata d st) now
    have hp := calculatePopularityScore_bounds (extractSSMetadata d st)
    refine ⟨⟨hpos, hs_le⟩, hk, hf, hp, ?_⟩
    have hcb := combinedDefault_bounds (buildResult e.scoreWeights query st now s d)
      (le_of_lt hpos) hs_le hk.1 hk.2 hf.1 hf.2 hp.1 hp.2
    rw [hw] at hcb ⊢
    exact hcb
  · intro pd now query uc conf jira code r hr
    have hent : ∀ c ∈ allCorrEntries (calculateCrossSourceCorrelations pd
        (rankConfluenceResults pd now query uc conf) (rankJiraResults pd now query uc jira)
        (rankCodeResults pd now query uc code) query), 0 ≤ c.correlation_score := by
      intro c hc
      have := crossCorrEntries_gt_half pd (rankConfluenceResults pd now query uc conf)
        (rankJiraResults pd now query uc jira) (rankCodeResults pd now query uc code)
        query c hc
      linarith
    simp only [rankAllResults, List.mem_append] at hr
    rcases hr with (hr | hr) | hr
    · obtain ⟨x, hx, hr'⟩ := (mem_applyBoosts₁ _ _ _ _ _).mp hr
      subst hr'
      obtain ⟨it, -, hx'⟩ := mem_rankConfluenceResults pd now query uc conf x hx
      subst hx'
      have hc := confluenceComposite_bounds pd now query uc it
      have hc0 : 0 ≤ (augmentWith (confluenceBreakdown pd now query uc it) it).ranking_score := by
        rw [augmentWith_score]; exact hc.1
      have hc1 : (augmentWith (confluenceBreakdown pd now query uc it) it).ranking_score ≤ 1 := by
        rw [augmentWith_score]; exact hc.2
      have hb := boostItem_bounds _ confKeyOf _ hc0 hc1 hent
      refine ⟨hb.1, ?_⟩
      rw [hb.2, augmentWith_breakdown]
      exact confluenceBreakdown_entry_bounds pd now query uc it
    · obtain ⟨x, hx, hr'⟩ := (mem_applyBoosts₂ _ _ _ _ _).mp hr
      subst hr'
      obtain ⟨it, -, hx'⟩ := mem_rankJiraResults pd now query uc jira x hx
      subst hx'
      have hc := jiraComposite_bounds pd now query uc it
      have hc0 : 0 ≤ (augmentWith (jiraBreakdown pd now query uc it) it).ranking_score := by
        rw [augmentWith_score]; exact hc.1
      have hc1 : (augmentWith (jiraBreakdown pd now query uc it) it).ranking_score ≤ 1 := by
        rw [augmentWith_score]; exact hc.2
      have hb := boostItem_bounds _ jiraKeyOf _ hc0 hc1 hent
      refine ⟨hb.1, ?_⟩
      rw [hb.2, augmentWith_breakdown]
      exact jiraBreakdown_entry_bounds pd now query uc it
    · obtain ⟨x, hx, hr'⟩ := (mem_applyBoosts₃ _ _ _ _ _).mp hr
      subst hr'
      obtain ⟨it, -, hx'⟩ := mem_rankCodeResults pd now query uc code x hx
      subst hx'
      have hc := codeComposite_bounds pd now query uc it
      have hc0 : 0 ≤ (augmentWith (codeBreakdown pd now query uc it) it).ranking_score := by
        rw [augmentWith_score]; exact hc.1
      have hc1 : (augmentWith (codeBreakdown pd now query uc it) it).ranking_score ≤ 1 := by
        rw [augmentWith_score]; exact hc.2
      have hb := boostItem_bounds _ codeKeyOf _ hc0 hc1 hent
      refine ⟨hb.1, ?_⟩
      rw [hb.2, augmentWith_breakdown]
      exact codeBreakdown_entry_bounds pd now query uc it

/-- Document of the search witness engine. -/
def wsDoc : SSDoc := { title := some "hello" }

/-- Index of the search witness engine: one document, one unit row. -/
def wsIdx : SearchIndex :=
  { documents := [wsDoc], matrixRows := [[1]], document_embeddings := [] }

/-- Engine with default weights used by the search witnesses. -/
def wsEngine : Engine :=
  { indexes := [("confluence", wsIdx)], scoreWeights := defaultScoreWeights }

/-- The single result the witness search returns. -/
def wsResult : SearchResult := buildResult defaultScoreWeights "hey" "confluence" 0 1 wsDoc

theorem wsResult_combined_nonneg : (0:ℚ) ≤ wsResult.combined_score := by
  have hk := calculateKeywordScore_bounds "hey" (extractTextContent wsDoc "confluence")
  have hf := calculateFreshnessScore_bounds (extractSSMetadata wsDoc "confluence") 0
  have hp := calculatePopularityScore_bounds (extractSSMetadata wsDoc "confluence")
  have h := combinedDefault_bounds wsResult (by norm_num [wsResult, buildResult_semantic])
    (by norm_num [wsResult, buildResult_semantic]) hk.1 hk.2 hf.1 hf.2 hp.1 hp.2
  exact h.1

theorem wsSearch_eq :
    searchEngine (fun _ _ => 1) (fun _ => []) wsEngine "hey" (some ["confluence"]) 5 0 0 =
      [wsResult] := by
  have hc : decide ((0:ℚ) ≤
      (buildResult defaultScoreWeights "hey" "confluence" 0 1 wsDoc).combined_score) = true :=
    decide_eq_true wsResult_combined_nonneg
  simp only [searchEngine, Option.getD_some]
  norm_num [wsEngine, wsIdx, searchIndexRun, sortDescBy, List.insertionSort,
    List.orderedInsert, List.lookup, List.filter_cons, List.filter_nil, hc, wsResult]

/-- Witness for C1 at a concrete one-document engine. -/
theorem c1_score_bounds_witness :
    (0 < wsResult.semantic_score ∧ wsResult.semantic_score ≤ 1) ∧
    (0 ≤ wsResult.keyword_score ∧ wsResult.keyword_score ≤ 1) ∧
    (0 ≤ wsResult.freshness_score ∧ wsResult.freshness_score ≤ 1) ∧
    (0 ≤ wsResult.popularity_score ∧ wsResult.popularity_score ≤ 1) ∧
    (0 ≤ wsResult.combined_score ∧ wsResult.combined_score ≤ 1) :=
  c1_score_bounds.2.2.2.2.2.2.2.2.2.2.2.2.2.2.2.1 (fun _ _ => 1) (fun _ => []) wsEngine
    "hey" (some ["confluence"]) 5 0 0 (fun _ _ => le_refl 1) rfl wsResult
    (by rw [wsSearch_eq]; exact List.mem_singleton.mpr rfl)

/-- Witness for C2 at the same concrete engine. -/
theorem c2_search_contract_witness :
    wsResult.combined_score = wsResult.semantic_score * (2/5) +
      wsResult.keyword_score * (3/10) + wsResult.freshness_score * (3/20) +
      wsResult.popularity_score * (3/20) :=
  (c2_search_contract (fun _ _ => 1) (fun _ => []) wsEngine "hey" (some ["confluence"])
      5 0 0 rfl).1 wsResult (by rw [wsSearch_eq]; exact List.mem_singleton.mpr rfl)

/-- Witness for C9 at the same concrete engine. -/
theorem c9_zero_similarity_excluded_witness :
    0 < wsResult.semantic_score :=
  (c9_zero_similarity_excluded (fun _ _ => 1) (fun _ => []) wsEngine "hey"
    (some ["confluence"]) 5 0 0 wsResult
    (by rw [wsSearch_eq]; exact List.mem_singleton.mpr rfl)).1

/-- Document of the find-similar witness engine. -/
def w10Doc : SSDoc := { id := some "b" }

/-- Index of the find-similar witness engine. -/
def w10Idx : SearchIndex :=
  { documents := [w10Doc], matrixRows := [[1]],
    document_embeddings := [("confluence:a", [1])] }

/-- Engine of the find-similar witness. -/
def w10Engine : Engine := { indexes := [("confluence", w10Idx)] }

/-- The single neighbour the witness query returns. -/
def w10Result : SearchResult := mkSimResult "confluence" 1 w10Doc

theorem w10_find_eq :
    findSimilarDocuments (fun _ _ => 1) w10Engine "confluence:a" "confluence" 3 =
      [w10Result] := by
  have h : ((1:ℚ)/10 < 1) := by norm_num
  simp only [findSimilarDocuments]
  norm_num [w10Engine, w10Idx, List.lookup, sortDescBy, List.insertionSort,
    List.orderedInsert, simLoop, getDocumentId, w10Doc, w10Result, h]
  decide

/-- Witness for C10: the empty engine returns an empty list, a missing
embedding returns an empty list, the concrete neighbour differs from the
queried id with similarity above 0.1, and the output respects the limit. -/
theorem c10_find_similar_witness :
    findSimilarDocuments (fun _ _ => 1) ({} : Engine) "confluence:a" "confluence" 3 = [] ∧
    findSimilarDocuments (fun _ _ => 1) w10Engine "missing" "confluence" 3 = [] ∧
    (w10Result.source ≠ "confluence:a" ∧ 1/10 < w10Result.semantic_score) ∧
    (findSimilarDocuments (fun _ _ => 1) w10Engine "confluence:a" "confluence" 3).length ≤ 3 :=
  ⟨(c10_find_similar (fun _ _ => 1) ({} : Engine) "confluence:a" "confluence" 3).1 rfl,
   (c10_find_similar (fun _ _ => 1) w10Engine "missing" "confluence" 3).2.1 w10Idx rfl rfl,
   (c10_find_similar (fun _ _ => 1) w10Engine "confluence:a" "confluence" 3).2.2.1 w10Result
     (by rw [w10_find_eq]; exact List.mem_singleton.mpr rfl),
   (c10_find_similar (fun _ _ => 1) w10Engine "confluence:a" "confluence" 3).2.2.2⟩
